import Mathlib

set_option maxRecDepth 100000

/-!
Verification of the merlin-cli command layer: a shallow embedding of the
repository's command objects (their `Do`, `Menu`, and help pipelines) and
proofs about the spec's claims over that embedding.

Go strings are embedded as `List Char` (`Str`).  Each Go string literal is
written as a Lean string literal followed by `.data`.  External
collaborators (the RPC layer, the local filesystem, the listener/module
repositories, local process execution, table rendering) are oracles in an
`Env` record; the observable calls a command makes to them are recorded in
an `Effect` trace.  Go runtime panics are represented by the `GoEx`
result type.
-/

/-- Embedded Go string: a list of characters. -/
abbrev Str := List Char

/-- The double-quote character (byte 34). -/
def chDQuote : Char := Char.ofNat 34

/-- The single-quote character (byte 39). -/
def chSQuote : Char := Char.ofNat 39

/-- The backslash character (byte 92). -/
def chBackslash : Char := Char.ofNat 92

/-- Number of bytes of the UTF-8 encoding of one character. -/
def charUtf8Size (c : Char) : Nat :=
  if c.toNat < 128 then 1
  else if c.toNat < 2048 then 2
  else if c.toNat < 65536 then 3
  else 4

/-- Number of bytes of the UTF-8 encoding of a string: Go's `len(s)`. -/
def utf8Len (s : Str) : Nat := (s.map charUtf8Size).sum

/-- Go's `strings.Split(s, string(sep))`: splits at every occurrence of
`sep`, keeping empty fields; the empty string yields `[""]`. -/
def goSplit (sep : Char) : Str → List Str
  | [] => [[]]
  | c :: rest =>
    let r := goSplit sep rest
    if c == sep then [] :: r
    else
      match r with
      | [] => [[c]]
      | w :: ws => (c :: w) :: ws

/-- Go's `strings.ToLower` (character-wise lowering). -/
def goToLower (s : Str) : Str := s.map Char.toLower

/-- Fuel-driven worker for `goReplaceAll`; the fuel starts at the input
length, which bounds the number of steps. -/
def goReplaceAllAux (old new : Str) : Nat → Str → Str
  | 0, s => s
  | _ + 1, [] => []
  | fuel + 1, c :: rest =>
    if !old.isEmpty && old.isPrefixOf (c :: rest) then
      new ++ goReplaceAllAux old new fuel ((c :: rest).drop old.length)
    else
      c :: goReplaceAllAux old new fuel rest

/-- Go's `strings.Replace(s, old, new, -1)` (replace all occurrences). -/
def goReplaceAll (old new s : Str) : Str := goReplaceAllAux old new s.length s

deriving instance DecidableEq for Except

/-- Go's `strconv.Atoi`: optional sign, decimal digits, 64-bit range. -/
def goAtoi (s : Str) : Except Str Int :=
  let (neg, digits) :=
    match s with
    | '-' :: rest => (true, rest)
    | '+' :: rest => (false, rest)
    | _ => (false, s)
  if digits.isEmpty || !digits.all Char.isDigit then
    .error ("strconv.Atoi: parsing ".data ++ [chDQuote] ++ s ++ [chDQuote] ++ ": invalid syntax".data)
  else
    let n : Nat := digits.foldl (fun acc c => acc * 10 + (c.toNat - 48)) 0
    let v : Int := if neg then -(n : Int) else (n : Int)
    if v < -9223372036854775808 ∨ v > 9223372036854775807 then
      .error ("strconv.Atoi: parsing ".data ++ [chDQuote] ++ s ++ [chDQuote] ++ ": value out of range".data)
    else
      .ok v

/-- Value of one character of the standard base64 alphabet. -/
def b64Val (c : Char) : Option Nat :=
  if 'A' ≤ c ∧ c ≤ 'Z' then some (c.toNat - 65)
  else if 'a' ≤ c ∧ c ≤ 'z' then some (c.toNat - 97 + 26)
  else if '0' ≤ c ∧ c ≤ '9' then some (c.toNat - 48 + 52)
  else if c = '+' then some 62
  else if c = '/' then some 63
  else none

/-- Error text stand-in for Go's `base64.CorruptInputError` (the Go error
names a byte offset; only the failure itself matters here). -/
def b64ErrText : Str := "illegal base64 data at input byte".data

/-- Decode base64 quanta of four characters; `=` padding is allowed only
in the final quantum, as in Go's `StdEncoding`. -/
def base64DecodeQuanta : List Char → Except Str (List Nat)
  | [] => .ok []
  | [a, b, c, d] =>
    if d == '=' then
      if c == '=' then
        match b64Val a, b64Val b with
        | some va, some vb => .ok [va * 4 + vb / 16]
        | _, _ => .error b64ErrText
      else
        match b64Val a, b64Val b, b64Val c with
        | some va, some vb, some vc =>
          .ok [va * 4 + vb / 16, (vb % 16) * 16 + vc / 4]
        | _, _, _ => .error b64ErrText
    else
      match b64Val a, b64Val b, b64Val c, b64Val d with
      | some va, some vb, some vc, some vd =>
        .ok [va * 4 + vb / 16, (vb % 16) * 16 + vc / 4, (vc % 4) * 64 + vd]
      | _, _, _, _ => .error b64ErrText
  | a :: b :: c :: d :: rest =>
    match b64Val a, b64Val b, b64Val c, b64Val d with
    | some va, some vb, some vc, some vd =>
      match base64DecodeQuanta rest with
      | .ok tail => .ok ([va * 4 + vb / 16, (vb % 16) * 16 + vc / 4, (vc % 4) * 64 + vd] ++ tail)
      | .error e => .error e
    | _, _, _, _ => .error b64ErrText
  | _ => .error b64ErrText

/-- Go's `base64.StdEncoding.DecodeString`: carriage returns and newlines
are skipped, the remaining length must be a multiple of four, and `=`
padding may close the final quantum. -/
def base64Decode (s : Str) : Except Str (List Nat) :=
  base64DecodeQuanta (s.filter (fun c => !(c == '\r' || c == '\n')))

/-- The standard base64 alphabet. -/
def b64Alphabet : Str :=
  "ABCDEFGHIJKLMNOPQRSTUVWXYZabcdefghijklmnopqrstuvwxyz0123456789+/".data

/-- Character of the standard base64 alphabet at index `n`. -/
def b64Chr (n : Nat) : Char := b64Alphabet.getD n 'A'

/-- Go's `base64.StdEncoding.EncodeToString` over a byte list. -/
def base64Encode : List Nat → Str
  | [] => []
  | [a] => [b64Chr (a / 4), b64Chr (a % 4 * 16), '=', '=']
  | [a, b] => [b64Chr (a / 4), b64Chr (a % 4 * 16 + b / 16), b64Chr (b % 16 * 4), '=']
  | a :: b :: c :: rest =>
    [b64Chr (a / 4), b64Chr (a % 4 * 16 + b / 16), b64Chr (b % 16 * 4 + c / 64), b64Chr (c % 64)]
      ++ base64Encode rest

/-- Value of a hexadecimal digit. -/
def hexVal (c : Char) : Option Nat :=
  if '0' ≤ c ∧ c ≤ '9' then some (c.toNat - 48)
  else if 'a' ≤ c ∧ c ≤ 'f' then some (c.toNat - 97 + 10)
  else if 'A' ≤ c ∧ c ≤ 'F' then some (c.toNat - 65 + 10)
  else none

/-- Go's `hex.DecodeString`: pairs of hex digits; odd length or an
invalid digit is an error. -/
def hexDecode : List Char → Except Str (List Nat)
  | [] => .ok []
  | [_] => .error "encoding/hex: odd length hex string".data
  | a :: b :: rest =>
    match hexVal a, hexVal b with
    | some va, some vb =>
      match hexDecode rest with
      | .ok tail => .ok ((va * 16 + vb) :: tail)
      | .error e => .error e
    | _, _ => .error "encoding/hex: invalid byte".data

/-- One dotted-decimal IPv4 field: decimal digits, value at most 255, and
no leading zero (Go rejects leading zeros in IPv4 fields). -/
def parseIPv4Field (s : Str) : Option Nat :=
  if s.isEmpty || !s.all Char.isDigit then none
  else if s.length > 1 && s.headD '0' == '0' then none
  else
    let n : Nat := s.foldl (fun acc c => acc * 10 + (c.toNat - 48)) 0
    if n ≤ 255 then some n else none

/-- Go's `net.ParseIP`, modelled for the colon-free strings that reach its
single call site in this repository (the host part of an `addr:port` token
obtained by splitting on `:` never contains a colon, and a textual IPv6
address always does, so only the IPv4 dotted-decimal form is relevant
there).  A string containing a colon is mapped to `none`; call sites never
pass one. -/
def netParseIP (s : Str) : Option (List Nat) :=
  if s.contains ':' then none
  else
    match (goSplit '.' s).mapM parseIPv4Field with
    | some fields => if fields.length = 4 then some fields else none
    | none => none

/-- State of the shell-words scanner (from the go-shellwords library). -/
structure SWState where
  args : List Str
  buf : Str
  escaped : Bool
  singleQ : Bool
  doubleQ : Bool
  got : Bool
deriving Repr

/-- One scanner step of go-shellwords `Parser.Parse`: backslash escapes
(literal inside single quotes), single/double quotes, whitespace splits
outside quotes, and closing an empty quote pair still yields an argument. -/
def swStep (st : SWState) (c : Char) : SWState :=
  if st.escaped then
    { st with buf := st.buf ++ [c], escaped := false, got := true }
  else if c == chBackslash then
    if st.singleQ then { st with buf := st.buf ++ [c] }
    else { st with escaped := true }
  else if c == ' ' || c == '\t' || c == '\r' || c == '\n' then
    if st.singleQ || st.doubleQ then { st with buf := st.buf ++ [c] }
    else if st.got then { st with args := st.args ++ [st.buf], buf := [], got := false }
    else st
  else if c == chDQuote then
    if !st.singleQ then
      { st with doubleQ := !st.doubleQ, got := st.got || (st.doubleQ && st.buf.isEmpty) }
    else { st with buf := st.buf ++ [c], got := true }
  else if c == chSQuote then
    if !st.doubleQ then
      { st with singleQ := !st.singleQ, got := st.got || (st.singleQ && st.buf.isEmpty) }
    else { st with buf := st.buf ++ [c], got := true }
  else
    { st with buf := st.buf ++ [c], got := true }

/-- The go-shellwords `Parse` function (library `mattn/go-shellwords`
v1.0.12), modelled for inputs free of the shell metacharacters
`;` `&` `|` `<` `>` `$(` `)` and backquote, which this model treats as
ordinary characters (the library's subshell/redirection handling is not
modelled; no command in this repository invites those characters).
Unterminated quoting or a trailing escape is the library's
"invalid command line string" error. -/
def shellwordsParse (s : Str) : Except Str (List Str) :=
  let st := s.foldl swStep ⟨[], [], false, false, false, false⟩
  let finalArgs := if st.got then st.args ++ [st.buf] else st.args
  if st.escaped || st.singleQ || st.doubleQ then
    .error "invalid command line string".data
  else
    .ok finalArgs

example : goSplit ' ' "token privs abc".data = ["token".data, "privs".data, "abc".data] := by decide
example : goSplit ' ' "".data = ["".data] := by decide
example : goSplit ' ' "a  b".data = ["a".data, "".data, "b".data] := by decide
example : goAtoi "1320".data = .ok 1320 := by decide
example : (goAtoi "abc".data).isOk = false := by decide
example : base64Decode "aGk=".data = .ok [104, 105] := by decide
example : (base64Decode "a".data).isOk = false := by decide
example : base64Decode "help".data = .ok [133, 233, 105] := by decide
example : base64Encode [104, 105] = "aGk=".data := by decide
example : hexDecode "5051".data = .ok [80, 81] := by decide
example : netParseIP "127.0.0.1".data = some [127, 0, 0, 1] := by decide
example : netParseIP "not-an-ip".data = none := by decide
example : netParseIP "256.1.1.1".data = none := by decide
example : netParseIP "01.2.3.4".data = none := by decide
example : shellwordsParse "! echo hi".data = .ok ["!".data, "echo".data, "hi".data] := by decide
example : (shellwordsParse ("! help ".data ++ [chDQuote])).isOk = false := by decide
example : shellwordsParse "touch".data = .ok ["touch".data] := by decide
example : goReplaceAll "0x".data "".data "0x50,0x51".data = "50,51".data := by decide

/-!
## Data model

`Menu`, `Level` (user-message levels), `UserMessage`, `Response`, and
`Help` are the repository's `entity/menu`, `message`, `commands.Response`
and `entity/help` value types.  Their definitions are not under the
sources provided for the command layer, so they are modelled from the
spec: the spec lists the concrete menus MAIN, LISTENERS, LISTENERSETUP,
MODULE, MODULES, AGENT plus the ALLMENUS sentinel (the command sources
also reference a LISTENER menu, included here); message levels are
Plain, Info, Success, Warn, Error; a Response is a leveled message plus
an optional menu transition and prompt; a Help bundles description,
example, notes, and usage, in the argument order of `help.NewHelp`.
-/

/-- Modelled from the spec: the menu (UI context) enumeration, with the
ALLMENUS sentinel and the LISTENER menu referenced by the sources. -/
inductive Menu
  | ALLMENUS
  | MAIN
  | AGENT
  | LISTENER
  | LISTENERS
  | LISTENERSETUP
  | MODULE
  | MODULES
deriving DecidableEq, Repr

/-- Modelled from the spec: user-message levels. -/
inductive Level
  | Plain
  | Info
  | Success
  | Warn
  | Error
deriving DecidableEq, Repr

/-- Modelled from the spec: a leveled user-facing message
(`message.UserMessage`). -/
structure UserMessage where
  level : Level
  text : Str
deriving DecidableEq, Repr

/-- `message.NewUserMessage(level, text)`. -/
def newUserMessage (l : Level) (t : Str) : UserMessage := ⟨l, t⟩

/-- `message.NewErrorMessage(err)`: an Error-level message carrying the
error's text. -/
def newErrorMessage (t : Str) : UserMessage := ⟨.Error, t⟩

/-- Modelled from the spec: `commands.Response` — an optional message,
an optional menu transition, and an optional prompt; all absent in the
zero value a `Do` method starts from. -/
structure Response where
  message : Option UserMessage := none
  menu : Option Menu := none
  prompt : Option Str := none
deriving DecidableEq, Repr

/-- Modelled from the spec: `help.Help`, fields in the argument order of
`help.NewHelp(description, example, notes, usage)`, named after the
accessors `Description()`, `Example()`, `Notes()`, `Usage()`. -/
structure Help where
  Description : Str
  Example : Str
  Notes : Str
  Usage : Str
deriving DecidableEq, Repr

/-- The `Job` entity (`entity/job`). -/
structure Job where
  ID : Str
  AgentID : Str
  Command : Str
  Created : Str
  Completed : Str
  Status : Str
  Sent : Str
deriving DecidableEq, Repr

/-- One observable call a command makes to an external collaborator:
an RPC stub, a repository mutation, or a local process execution. -/
inductive Effect
  | rpcToken (id : Str) (args : List Str)
  | rpcListener (id : Str) (args : List Str)
  | rpcExecuteShellcode (id : Str) (args : List Str)
  | rpcExecuteAssembly (id : Str) (args : List Str)
  | rpcSharpGen (id : Str) (args : List Str)
  | rpcTouch (id : Str) (args : List Str)
  | rpcNetstat (id : Str) (args : List Str)
  | rpcListenerSetOption (id : Str) (args : List Str)
  | rpcGetAgentActiveJobs (id : Str)
  | rpcGetAllActiveJobs
  | repoUpdateListener (id : Str) (options : List (Str × Str))
  | repoUpdateModuleOption (id : Str) (key value : Str)
  | repoReloadModule (id : Str)
  | execLocal (argv : List Str)
deriving DecidableEq, Repr

/-- Oracles for every external collaborator a command consults: the RPC
service stubs return the pre-formatted message the server answers with;
`stat`/`readFile` model the local filesystem (`stat` is `none` when the
path does not exist, otherwise `some isDir`); `renderTable` models the
tablewriter library; `execCombinedOutput` models `exec.Cmd.CombinedOutput`
as (process id if one started, combined output, error); the listener and
module repository operations model `listener/memory` and `module/memory`
(`none` from an update means success, `some err` the error text). -/
structure Env where
  rpcToken : List Str → UserMessage
  rpcListener : List Str → UserMessage
  rpcExecuteShellcode : List Str → UserMessage
  rpcExecuteAssembly : List Str → UserMessage
  rpcSharpGen : List Str → UserMessage
  rpcTouch : List Str → UserMessage
  rpcNetstat : List Str → UserMessage
  rpcListenerSetOption : List Str → UserMessage
  rpcGetAgentActiveJobs : Except Str (List Job)
  rpcGetAllActiveJobs : Except Str (List Job)
  stat : Str → Option Bool
  readFile : Str → Option Str
  readFileErr : Str
  renderTable : List Str → List (List Str) → Str
  execCombinedOutput : List Str → Option Nat × Str × Option Str
  listenerGet : Option (List (Str × Str))
  listenerGetErr : Str
  listenerUpdate : List (Str × Str) → Option Str
  moduleGet : Option Str
  moduleGetErr : Str
  moduleUpdateOption : Str → Str → Option Str
  moduleReload : Option Str

/-- Result of a Go computation that can end in a runtime panic. -/
inductive GoEx (α : Type)
  | panicked (msg : Str)
  | ok (a : α)
deriving DecidableEq, Repr

/-- What one dispatch of a command produces: its Response and the trace
of collaborator calls it made. -/
abbrev DoOut := Response × List Effect

/-- A response that carries only a message (the common
`response.Message = ...; return` shape). -/
def msgResp (msg : UserMessage) : Response := { message := some msg }

/-- A message-only `DoOut` with no collaborator calls. -/
def msgOut (msg : UserMessage) : DoOut := (msgResp msg, [])

/-- True when the (not yet lowered) token case-insensitively matches one
of the help aliases `help`, `-h`, `--help`, `?`, `/?` — the
`switch strings.ToLower(args[i])` help cases shared by every command. -/
def isHelpArg (s : Str) : Bool :=
  let low := goToLower s
  low == "help".data || low == "-h".data || low == "--help".data ||
    low == "?".data || low == "/?".data

/-- The help text every command renders:
`'NAME' command help` followed by description, usage, example, notes. -/
def helpFormat (name : Str) (h : Help) : Str :=
  "\x27".data ++ name ++ "\x27 command help\n\nDescription:\n\t".data ++ h.Description ++
    "\nUsage:\n\t".data ++ h.Usage ++ "\nExample:\n\t".data ++ h.Example ++
    "\nNotes:\n\t".data ++ h.Notes

/-- The help text a sub-command renders: `'NAME SUB' command help`
followed by the sub-command's description, usage, example, notes. -/
def helpFormatSub (name sub : Str) (h : Help) : Str :=
  "\x27".data ++ name ++ " ".data ++ sub ++ "\x27 command help\n\nDescription:\n\t".data ++
    h.Description ++ "\nUsage:\n\t".data ++ h.Usage ++ "\nExample:\n\t".data ++ h.Example ++
    "\nNotes:\n\t".data ++ h.Notes

/-- `hay` contains `needle` as a contiguous substring. -/
def strContains (hay needle : Str) : Prop := ∃ p q, hay = p ++ needle ++ q
def tokenDescription : Str := "Interact with Windows access tokens".data
def tokenUsage : Str := "token \x7bmake|privs|rev2self|steal|whoami\x7d [options]".data
def tokenExample : Str := "".data
def tokenNotes : Str := "Merlin keeps track of when a Windows access token was created or stolen. If there is a created or stolen token, it will be used with the following commands:\n\t- cd\n\t- download\n\t- execute-assembly\n\t- execute-pe\n\t- execute-shellcode\n\t- invoke-assembly\n\t- minidump\n\t- kill\n\t- ls\n\t- ps\n\t- rm\n\t- run\n\t- shell\n\t- touch\n\t- upload\n\nThe following commands will make the Windows CreateProcessWithTokenW API call:\n\t- execute-assembly\n\t- execute-pe\n\t- execute-shellcode\n\t- run\n\t- shell\n".data
def tokenMakeDescription : Str := "Create a new Windows access token".data
def tokenMakeUsage : Str := "token make DOMAIN\\USERNAME PASSWORD".data
def tokenMakeExample : Str := "Merlin[agent][c1090dbc-f2f7-4d90-a241-86e0c0217786]\u00bb token make ACME\\\\Administrator S3cretPassw0rd\n\t[-] Created job piloeJbKPp for agent c1090dbc-f2f7-4d90-a241-86e0c0217786\n\t[-] Results job piloeJbKPp for agent c1090dbc-f2f7-4d90-a241-86e0c0217786\n\t[+] Successfully created a Windows access token for ACME\\Administrator with a logon ID of 0xA703CF0".data
def tokenMakeNotes : Str := "Tokens are created with the Windows LogonUserW API call. The token is created with a type 9 - NewCredentials logon type. This is the equivalent of using runas.exe /netonly.\n\tCommands such as \x27token whoami\x27 will show the username for the process and not the created token due to the logon type, but will reflect the new Logon ID\tWARNING: Type 9 - NewCredentials tokens only work for NETWORK authenticated activities\n\tReferences:\n\t\t- https://docs.microsoft.com/en-us/windows-server/identity/securing-privileged-access/reference-tools-logon-types".data
def tokenPrivsDescription : Str := "Enumerate token privileges for the current or remote process".data
def tokenPrivsUsage : Str := "token privs [PID]".data
def tokenPrivsExample : Str := "Merlin[agent][c1090dbc-f2f7-4d90-a241-86e0c0217786]\u00bb token privs\n\t[-] Created job rBIkAAWkIr for agent c1090dbc-f2f7-4d90-a241-86e0c0217786\n\t[-] Results job rBIkAAWkIr for agent c1090dbc-f2f7-4d90-a241-86e0c0217786\n\n\t[+] Process ID 6892 access token integrity level: High, privileges (24):\n\t        Privilege: SeIncreaseQuotaPrivilege, Attribute:\n\t        Privilege: SeSecurityPrivilege, Attribute:\n\t        Privilege: SeTakeOwnershipPrivilege, Attribute:\n\t        Privilege: SeLoadDriverPrivilege, Attribute:\n\t        Privilege: SeSystemProfilePrivilege, Attribute:\n\t        Privilege: SeSystemtimePrivilege, Attribute:\n\t        Privilege: SeProfileSingleProcessPrivilege, Attribute:\n\t        Privilege: SeIncreaseBasePriorityPrivilege, Attribute:\n\t        Privilege: SeCreatePagefilePrivilege, Attribute:\n\t        Privilege: SeBackupPrivilege, Attribute:\n\t        Privilege: SeRestorePrivilege, Attribute:\n\t        Privilege: SeShutdownPrivilege, Attribute:\n\t        Privilege: SeDebugPrivilege, Attribute: SE_PRIVILEGE_ENABLED\n\t        Privilege: SeSystemEnvironmentPrivilege, Attribute:\n\t        Privilege: SeChangeNotifyPrivilege, Attribute: SE_PRIVILEGE_ENABLED_BY_DEFAULT,SE_PRIVILEGE_ENABLED\n\t        Privilege: SeRemoteShutdownPrivilege, Attribute:\n\t        Privilege: SeUndockPrivilege, Attribute:\n\t        Privilege: SeManageVolumePrivilege, Attribute:\n\t        Privilege: SeImpersonatePrivilege, Attribute: SE_PRIVILEGE_ENABLED_BY_DEFAULT,SE_PRIVILEGE_ENABLED\n\t        Privilege: SeCreateGlobalPrivilege, Attribute: SE_PRIVILEGE_ENABLED_BY_DEFAULT,SE_PRIVILEGE_ENABLED\n\t        Privilege: SeIncreaseWorkingSetPrivilege, Attribute:\n\t        Privilege: SeTimeZonePrivilege, Attribute:\n\t        Privilege: SeCreateSymbolicLinkPrivilege, Attribute:\n\t        Privilege: SeDelegateSessionUserImpersonatePrivilege, Attribute:\n\n\tRemote process:\n\tMerlin[agent][c1090dbc-f2f7-4d90-a241-86e0c0217786]\u00bb token privs 8156\n\t[-] Created job BAKadQhkOc for agent c1090dbc-f2f7-4d90-a241-86e0c0217786\n\t[-] Results job BAKadQhkOc for agent c1090dbc-f2f7-4d90-a241-86e0c0217786\n\n\t[+] Process ID 8156 access token integrity level: Low, privileges (2):\n\t        Privilege: SeChangeNotifyPrivilege, Attribute: SE_PRIVILEGE_ENABLED_BY_DEFAULT,SE_PRIVILEGE_ENABLED\n\t        Privilege: SeIncreaseWorkingSetPrivilege, Attribute:".data
def tokenPrivsNotes : Str := "".data
def tokenRev2SelfDescription : Str := "Revert the thread impersonation token to the process token".data
def tokenRev2SelfUsage : Str := "rev2self".data
def tokenRev2SelfExample : Str := "Merlin[agent][c1090dbc-f2f7-4d90-a241-86e0c0217786]\u00bb token rev2self\n\t[-] Created job ZXKyKuIZru for agent c1090dbc-f2f7-4d90-a241-86e0c0217786\n\t[-] Results job ZXKyKuIZru for agent c1090dbc-f2f7-4d90-a241-86e0c0217786\n\n\t[+] Successfully reverted to self and dropped the impersonation token".data
def tokenRev2SelfNotes : Str := "Leverages the RevertToSelf Windows API function. There is \x27rev2sef\x27 command alias.\n\tReferences:\n\t\t- https://docs.microsoft.com/en-us/windows/win32/api/securitybaseapi/nf-securitybaseapi-reverttoself".data
def tokenStealDescription : Str := "Steal and use a Windows access token from another process".data
def tokenStealUsage : Str := "token steal PID".data
def tokenStealExample : Str := "Merlin[agent][c1090dbc-f2f7-4d90-a241-86e0c0217786]\u00bb token steal 1320\n\t[-] Created job xBDIToajju for agent c1090dbc-f2f7-4d90-a241-86e0c0217786\n\t[-] Results job xBDIToajju for agent c1090dbc-f2f7-4d90-a241-86e0c0217786\n\n\t[+] Successfully stole token from PID 1320 for user ACME\\Administrator with LogonID 0x39DF3C".data
def tokenStealNotes : Str := "The steal command obtains a handle to a remote process\u2019 access token, duplicates it through the DuplicateTokenEx Windows API, and subsequently uses it to perform future post-exploitation commands.\n\tThere is an unregistered steal_token command alias that can be use from the agent root menu prompt\n\tReferences:\n\t\t- https://docs.microsoft.com/en-us/windows/win32/api/securitybaseapi/nf-securitybaseapi-duplicatetokenex".data
def tokenWhoamiDescription : Str := "Return information about the process and thread Windows access tokens".data
def tokenWhoamiUsage : Str := "token whoami".data
def tokenWhoamiExample : Str := "".data
def tokenWhoamiNotes : Str := "The whoami command leverages the Windows GetTokenInformaion API call to return information about both the process and thread Windows access token. This information includes:\n\n\t\t- Username\n\t\t- Token ID\n\t\t- Logon ID\n\t\t- Privilege Count\n\t\t- Group Count\n\t\t- Token Type\n\t\t- Token Impersonation Level\n\t\t- Integrity Level\n\n\tReferences:\n\t\t- https://docs.microsoft.com/en-us/windows/win32/api/securitybaseapi/nf-securitybaseapi-gettokeninformation".data

def execShellcodeDescription : Str := "Execute Windows shellcode".data
def execShellcodeUsage : Str := "execute-shellcode \x7bself|remote|RtlCreateUserThread|UserAPC\x7d [PID] \x7bshellcode | shellcodeFilePath\x7d".data
def execShellcodeExample : Str := "".data
def execShellcodeNotes : Str := "Shellcode can be provided using an absolute filepath or by pasting it directly into the terminal in one of the following formats:\n\n\t        Hex (e.g.,. 5051525356)\n\t        0x50, 0x51, 0x52, 0x53, 0x56 with or without spaces and commas\n\t        \\x50\\x51\\x52\\x53\\x56\n\t        Base64 encoded version of the above formats\n\t        A file containing any of the above formats or just a raw byte file\n\n\tWarning: Shellcode injection and execution could cause a process to crash so choose wisely\n\n\tNote: If Cobalt Strike\u2019s Beacon is injected using one of these methods, exiting the Beacon will cause the process to die too.".data
def escSelfDescription : Str := "Allocates space within the Merlin Agent process and executes the shellcode".data
def escSelfUsage : Str := "execute-shellcode self SHELLCODE".data
def escSelfExample : Str := "Merlin[agent][c1090dbc-f2f7-4d90-a241-86e0c0217786]\u00bb execute-shellcode self 505152535657556A605A6863616C6354594883EC2865488B32488B7618488B761048AD488B30488B7E3003573C8B5C17288B741F204801FE8B541F240FB72C178D5202AD813C0757696E4575EF8B741F1C4801FE8B34AE4801F799FFD74883C4305D5F5E5B5A5958C3\n\t[-]Created job joQNJONrEK for agent c1090dbc-f2f7-4d90-a241-86e0c0217786\n\tMerlin[agent][c1090dbc-f2f7-4d90-a241-86e0c0217786]\u00bb [+]Results for job joQNJONrEK\n\t[+]Shellcode executed successfully".data
def escSelfNotes : Str := "".data
def escRemoteDescription : Str := "Creates a thread in another process using the CreateRemoteThreadEx Windows API call.".data
def escRemoteUsage : Str := "execute-shellcode remote PID SHELLCODE".data
def escRemoteExample : Str := "Merlin[agent][c1090dbc-f2f7-4d90-a241-86e0c0217786]\u00bb execute-shellcode remote 6560 0x50, 0x51, 0x52, 0x53, 0x56, 0x57, 0x55, 0x6A, 0x60, 0x5A, 0x68, 0x63, 0x61, 0x6C, 0x63, 0x54, 0x59, 0x48, 0x83, 0xEC, 0x28, 0x65, 0x48, 0x8B, 0x32, 0x48, 0x8B, 0x76, 0x18, 0x48, 0x8B, 0x76, 0x10, 0x48, 0xAD, 0x48, 0x8B, 0x30, 0x48, 0x8B, 0x7E, 0x30, 0x03, 0x57, 0x3C, 0x8B, 0x5C, 0x17, 0x28, 0x8B, 0x74, 0x1F, 0x20, 0x48, 0x01, 0xFE, 0x8B, 0x54, 0x1F, 0x24, 0x0F, 0xB7, 0x2C, 0x17, 0x8D, 0x52, 0x02, 0xAD, 0x81, 0x3C, 0x07, 0x57, 0x69, 0x6E, 0x45, 0x75, 0xEF, 0x8B, 0x74, 0x1F, 0x1C, 0x48, 0x01, 0xFE, 0x8B, 0x34, 0xAE, 0x48, 0x01, 0xF7, 0x99, 0xFF, 0xD7, 0x48, 0x83, 0xC4, 0x30, 0x5D, 0x5F, 0x5E, 0x5B, 0x5A, 0x59, 0x58, 0xC3\n\t[-]Created job PRumZQYBFR for agent c1090dbc-f2f7-4d90-a241-86e0c0217786\n\tMerlin[agent][c1090dbc-f2f7-4d90-a241-86e0c0217786]\u00bb [+]Results for job PRumZQYBFR\n\t[+]Shellcode executed successfully".data
def escRemoteNotes : Str := "".data
def escRtlDescription : Str := "Creates a thread in another process using the undocumented RtlCreateUserThread Windows API call.".data
def escRtlUsage : Str := "execute-shellcode rtlcreateuserthread PID SHELLCODE".data
def escRtlExample : Str := "Merlin[agent][c1090dbc-f2f7-4d90-a241-86e0c0217786]\u00bb execute-shellcode RtlCreateUserThread 6560 \\x50\\x51\\x52\\x53\\x56\\x57\\x55\\x6A\\x60\\x5A\\x68\\x63\\x61\\x6C\\x63\\x54\\x59\\x48\\x83\\xEC\\x28\\x65\\x48\\x8B\\x32\\x48\\x8B\\x76\\x18\\x48\\x8B\\x76\\x10\\x48\\xAD\\x48\\x8B\\x30\\x48\\x8B\\x7E\\x30\\x03\\x57\\x3C\\x8B\\x5C\\x17\\x28\\x8B\\x74\\x1F\\x20\\x48\\x01\\xFE\\x8B\\x54\\x1F\\x24\\x0F\\xB7\\x2C\\x17\\x8D\\x52\\x02\\xAD\\x81\\x3C\\x07\\x57\\x69\\x6E\\x45\\x75\\xEF\\x8B\\x74\\x1F\\x1C\\x48\\x01\\xFE\\x8B\\x34\\xAE\\x48\\x01\\xF7\\x99\\xFF\\xD7\\x48\\x83\\xC4\\x30\\x5D\\x5F\\x5E\\x5B\\x5A\\x59\\x58\\xC3\n\t[-]Created job CCWrmdLIFQ for agent c1090dbc-f2f7-4d90-a241-86e0c0217786\n\tMerlin[agent][c1090dbc-f2f7-4d90-a241-86e0c0217786]\u00bb [+]Results for job CCWrmdLIFQ\n\t[+]Shellcode executed successfully".data
def escRtlNotes : Str := "".data
def escUserAPCDescription : Str := "Creates a thread in another process using the QueueUserAPC Windows API call.".data
def escUserAPCUsage : Str := "execute-shellcode userapc PID SHELLCODE".data
def escUserAPCExample : Str := "Merlin[agent][c1090dbc-f2f7-4d90-a241-86e0c0217786]\u00bb execute-shellcode userapc 4824 /home/rickastley/calc.bin\n\t[-]Created job NPQGRntaQX for agent c1090dbc-f2f7-4d90-a241-86e0c0217786\n\tMerlin[agent][c1090dbc-f2f7-4d90-a241-86e0c0217786]\u00bb [+]Results for job NPQGRntaQX\n\t[+]Shellcode executed successfully".data
def escUserAPCNotes : Str := "This method is highly unstable and therefore was intentionally not added to the tab completion list of available methods. The current implementation requires the process to have more than 1 thread. All remaining threads will have a user-mode APC queued to execute the shellcode and could result in multiple instances of execution. This method frequently causes processes to crash. Additionally, the shellcode might not execute at all if none of the threads were in an alertable state. The svchost.exe process usually provides a little better choice, but still not guaranteed.".data

def execAssemblyDescription : Str := "Execute .NET assembly as shellcode in a child process".data
def execAssemblyUsage : Str := "execute-assembly assemblyPath [assemblyArguments] [spawnToPath] [spawnToArguments]".data
def execAssemblyExample : Str := "Merlin[agent][c1090dbc-f2f7-4d90-a241-86e0c0217786]\u00bb execute-assembly Seatbelt.exe \"DotNet IdleTime\" \"C:\\\\Windows\\\\System32\\\\WerFault.exe\" /?\n\tMerlin[agent][c1090dbc-f2f7-4d90-a241-86e0c0217786]\u00bb\n\t[-] Created job dmAfzDPUsM for agent c1090dbc-f2f7-4d90-a241-86e0c0217786\n\n\n\t[+] Results for c1090dbc-f2f7-4d90-a241-86e0c0217786 job dmAfzDPUsM\n\n\n\n\t                        %&&@@@&&\n\t                        &&&&&&&%%%,                       #&&@@@@@@%%%%%%###############%\n\t                        &%&   %&%%                        &////(((&%%%%%#%################//((((###%%%%%%%%%%%%%%%\n\t%%%%%%%%%%%######%%%#%%####%  &%%**#                      @////(((&%%%%%%######################(((((((((((((((((((\n\t#%#%%%%%%%#######%#%%#######  %&%,,,,,,,,,,,,,,,,         @////(((&%%%%%#%#####################(((((((((((((((((((\n\t#%#%%%%%%#####%%#%#%%#######  %%%,,,,,,  ,,.   ,,         @////(((&%%%%%%%######################(#(((#(#((((((((((\n\t#####%%%####################  &%%......  ...   ..         @////(((&%%%%%%%###############%######((#(#(####((((((((\n\t#######%##########%#########  %%%......  ...   ..         @////(((&%%%%%#########################(#(#######((#####\n\t###%##%%####################  &%%...............          @////(((&%%%%%%%%##############%#######(#########((#####\n\t#####%######################  %%%..                       @////(((&%%%%%%%################\n\t                        &%&   %%%%%      Seatbelt         %////(((&%%%%%%%%#############*\n\t                        &%%&&&%%%%%        v1.1.0         ,(((&%%%%%%%%%%%%%%%%%,\n\t                         #%%%%##,\n\n\n\t====== DotNet ======\n\n\t  Installed CLR Versions\n\t      2.0.50727\n\t      4.0.30319\n\n\t  Installed .NET Versions\n\t      3.5.30729.4926\n\t      4.8.03752\n\n\t  Anti-Malware Scan Interface (AMSI)\n\t      OS supports AMSI           : True\n\t     .NET version support AMSI   : True\n\t        [!] The highest .NET version is enrolled in AMSI!\n\t        [*] You can invoke .NET version 3.5 to bypass AMSI.\n\t====== IdleTime ======\n\n\t  CurrentUser : DESKTOP-H35RK21\\rastley\n\t  Idletime    : 00h:06m:02s:766ms (362766 milliseconds)\n\n\n\n\t[*] Completed collection in 0.122 seconds".data
def execAssemblyNotes : Str := "Uses go-donut to convert a .NET assembly into shellcode and then uses the windows/x64/go/exec/createProcess Merlin module to execute the shellcode. The command requires the file path to the assembly you wish to execute in the <assembly path> argument.All other arguments are optional. The <spawnto path> argument is the process that will be started on the target and where the shellcode will be injected and executed. If a <spawnto path> is not provided, C:\\WIndows\\System32\\dllhost.exe will be used. The <spawnto args> value is used as an argument when starting the spawnto process.\n\n\tCurrently this command only supports .NET v4.0 assemblies. For more granular control, use the \x27windows/x64/go/exec/donut\x27 module.\n\n\tBecause \\ is used to escape a character, file paths require two (e.g., C:\\\\Windows)\n\n\tUse quotes to enclose multiple arguments for <assembly args> (e.g., execute-assembly Seatbelt.exe \"LocalGroups LocalUsers\")".data

def sharpgenDescription : Str := "Compile & execute arbitrary C# code.".data
def sharpgenUsage : Str := "sharpgen <C# code> [spawnto] [spawnto_args]".data
def sharpgenExample : Str := "Merlin[agent][c1090dbc-f2f7-4d90-a241-86e0c0217786]\u00bb sharpgen \"new SharpSploit.Credentials.Tokens().GetSystem()\"\n\t[-] Created job oeOBXfBuPS for agent c1090dbc-f2f7-4d90-a241-86e0c0217786\n\t[+] Results for c1090dbc-f2f7-4d90-a241-86e0c0217786 job oeOBXfBuPS\n\tGetting system...\n\tImpersonate NT AUTHORITY\\SYSTEM...\n\tProcesses for NT AUTHORITY\\SYSTEM: 25\n\tAttempting to impersonate: NT AUTHORITY\\SYSTEM\n\tAttempting to impersonate: NT AUTHORITY\\SYSTEM\n\tImpersonated: NT AUTHORITY\\SYSTEM\n\tTrue".data
def sharpgenNotes : Str := "This command only works on Windows.\n\n\tThe sharpgen command leverages Ryan Cobb\u2019s SharpGen project and the .NET Core 2.1 SDK to dynamically compile and execute .NET assemblies. After assembly is compiled, the same steps documented in execute-assembly are followed. SharpGen also leverages functionality from the SharpSploit project that can be called directly from this shargen command. This command uses a hardcoded output that places compiled executables to the Merlin root directory as sharpgen.exe.\n\n\tFor more granular control and additional configuration options, use the windows/x64/csharp/misc/SharpGen module.\n\n\tSharpGen is git a submodule in the data/src/cobbr/SharpGen directory. From this directory, run the dotnet build -c release command to build the SharpGen.dll executable.\n\tThe <C# code> positional argument is the .NET code you want to compile and execute. All code is automatically wraped in Console.WriteLine(); and it does not need to be included again. All other arguments are optional. The spawnto argument is the process that will be started on the target and where the shellcode will be injected and executed. If a spawnto is not provided, C:\\WIndows\\System32\\dllhost.exe will be used. The spawnto_args value is used as an argument when starting the spawnto process.\n\n\tUse \\ to escape any characters inside of the code argument and use quotes to enclose the entire code argument (e.g., \"new Tokens().MakeToken(\\\"RAstley\\\", \\\"\\\", \\\"P@ssword\\\")\")\n\n\tReferences:\n\t\t- https://github.com/cobbr/SharpGen\n\t\t- https://github.com/cobbr/SharpSploit\n\t\t- https://dotnet.microsoft.com/download/dotnet-core/2.1".data

def touchDescription : Str := "Copy a file\x27s timestamp to another file".data
def touchUsage : Str := "touch sourceFilePath destinationFilePath".data
def touchExample : Str := "Merlin[agent][c1090dbc-f2f7-4d90-a241-86e0c0217786]\u00bb shell ls -la /tmp/deleteMe.txt\n\t[-] Created job hEXYmbbGpW for agent c1090dbc-f2f7-4d90-a241-86e0c0217786\n\t[-] Results job hEXYmbbGpW for agent c1090dbc-f2f7-4d90-a241-86e0c0217786\n\n\t[+] -rw-rw-r-- 1 rastley rastley 0 Aug  2 20:11 /tmp/deleteMe.txt\n\n\tMerlin[agent][c1090dbc-f2f7-4d90-a241-86e0c0217786]\u00bb touch /etc/passwd /tmp/deleteMe.txt\n\t[-] Created job Canvuiuoxj for agent c1090dbc-f2f7-4d90-a241-86e0c0217786\n\t[-] Results job Canvuiuoxj for agent c1090dbc-f2f7-4d90-a241-86e0c0217786\n\n\t[+] File: /tmp/deleteMe.txt\n\tLast modified and accessed time set to: 2020-09-16 07:05:18.245022776 -0400 EDT\n\n\tMerlin[agent][c1090dbc-f2f7-4d90-a241-86e0c0217786]\u00bb shell ls -la /tmp/deleteMe.txt\n\t[-] Created job gTFZbcgeJW for agent c1090dbc-f2f7-4d90-a241-86e0c0217786\n\t[-] Results job gTFZbcgeJW for agent c1090dbc-f2f7-4d90-a241-86e0c0217786\n\n\t[+] -rw-rw-r-- 1 rastley rastley 0 Sep 16  2020 /tmp/deleteMe.txt".data
def touchNotes : Str := "This technique is also known as timestomp".data

def listenerDescription : Str := "Start, stop, or list peer-to-peer listeners on the Agent".data
def listenerUsage : Str := "listener \x7blist|start|stop\x7d [protocol] [address]".data
def listenerExample : Str := "".data
def listenerNotes : Str := "Use \x27-h\x27 after the subcommand to get more information".data
def listenerListDescription : Str := "Instruct the Agent to return a list of its peer-to-peer listeners".data
def listenerListUsage : Str := "listener list".data
def listenerListExample : Str := "Merlin[agent][c1090dbc-f2f7-4d90-a241-86e0c0217786]\u00bb listener list\n\t[-] Created job OebvmmBQPr for agent c1090dbc-f2f7-4d90-a241-86e0c0217786 at 2023-07-23T16:44:33Z\n\t[-] Results of job OebvmmBQPr for agent c1090dbc-f2f7-4d90-a241-86e0c0217786 at 2023-07-23T16:44:53Z\n\n\t[+] Peer-to-Peer Listeners (3):\n\t0. TCP listener on 127.0.0.1:7777\n\t1. UDP listener on [::]:8888\n\t2. SMB listener on \\\\.\\pipe\\merlinpipe\n".data
def listenerListNotes : Str := "The string \x60[::]\x60 signifies all IP interfaces".data
def listenerStartDescription : Str := "Instruct the Agent to start a peer-to-peer listener".data
def listenerStartUsage : Str := "listener start \x7bsmb|tcp|udp\x7d \x7bnamedPipe|<interface:port>\x7d".data
def listenerStartExample : Str := "Merlin[agent][c1090dbc-f2f7-4d90-a241-86e0c0217786]\u00bb listener start tcp 127.0.0.1:7777 \n\t[-] Created job LkIuWumcOt for agent c1090dbc-f2f7-4d90-a241-86e0c0217786 at 2023-07-23T16:40:24Z\n\t[-] Results of job LkIuWumcOt for agent c1090dbc-f2f7-4d90-a241-86e0c0217786 at 2023-07-23T16:40:37Z\n\t[+] Successfully started TCP listener on 127.0.0.1:7777\n\n\tMerlin[agent][c1090dbc-f2f7-4d90-a241-86e0c0217786]\u00bb listener start udp 0.0.0.0:8888\n\t[-] Created job suVecDPJhC for agent d942a9a5-a68e-42e7-8d26-71ac45e8345a at 2023-07-23T16:41:43Z\n\t[-] Results of job suVecDPJhC for agent d942a9a5-a68e-42e7-8d26-71ac45e8345a at 2023-07-23T16:41:56Z\n\t[+] Successfully started UDP listener on 0.0.0.0:8888\n".data
def listenerStartNotes : Str := "Use \x270.0.0.0\x27 for all IPv4 interfaces. Only provide the name of the pipe for the SMB listener (e.g., merlinPipe)".data
def listenerStopDescription : Str := "Instruct the Agent to stop a peer-to-peer listener".data
def listenerStopUsage : Str := "listener stop \x7bsmb|tcp|udp\x7d \x7bnamedPipe|<interface:port>\x7d".data
def listenerStopExample : Str := "Merlin[agent][c1090dbc-f2f7-4d90-a241-86e0c0217786]\u00bb listener stop tcp 127.0.0.1:7777\n\t[-] Created job zlVVVBDCVS for agent c1090dbc-f2f7-4d90-a241-86e0c0217786 at 2023-07-23T16:53:58Z\n\t[-] Results of job zlVVVBDCVS for agent c1090dbc-f2f7-4d90-a241-86e0c0217786 at 2023-07-23T16:54:18Z\n\t[+] Successfully closed TCP listener on 127.0.0.1:7777".data
def listenerStopNotes : Str := "".data

def jobsDescription : Str := "Display all unfinished jobs".data
def jobsUsage : Str := "jobs".data
def jobsExample : Str := "Merlin\u00bb jobs\n\n\t\t\t AGENT                 |     ID     |  COMMAND   | STATUS  |       CREATED        |         SENT\n\t+--------------------------------------+------------+------------+---------+----------------------+----------------------+\n\t  d07edfda-e119-4be2-a20f-918ab701fa3c | UjNoTALgcn | pwd        | Created | 2021-08-03T01:39:57Z |\n\t  99dbe632-984c-4c98-8f38-11535cb5d937 | UHOddpFQTm | run whoami | Sent    | 2021-08-03T01:40:11Z | 2021-08-03T01:40:17Z".data
def jobsNotes : Str := "Only the first 30 characters of the COMMAND are displayed".data

def reloadDescription : Str := "reload the module to reset the module\x27s state".data
def reloadUsage : Str := "reload".data
def reloadExample : Str := "Merlin[module][Invoke-Mimikatz]\u00bb reload\n\tMerlin[module][Invoke-Mimikatz]\u00bb".data
def reloadNotes : Str := "".data

def backDescription : Str := "Go to the main menu".data
def backUsage : Str := "back".data
def backExample : Str := "Merlin[agent][c1090dbc-f2f7-4d90-a241-86e0c0217786]\u00bb back\n\tMerlin\u00bb".data
def backNotes : Str := "This command is an alias for the \x27main\x27 command".data

def exclamationDescription : Str := "Execute a command on the local system".data
def exclamationUsage : Str := "! command [args]".data
def exclamationExample : Str := "Merlin\u00bb ! ip a show ens32\n\n\t[i] Executing system command...\n\n\t[+] 2: ens32: <BROADCAST,MULTICAST,UP,LOWER_UP> mtu 1500 qdisc fq_codel state UP group default qlen 1000\n\t    link/ether 00:0c:29:z3:ff:91 brd ff:ff:ff:ff:ff:ff\n\t    inet 192.168.211.221/24 brd 192.168.211.255 scope global dynamic noprefixroute ens32\n\t       valid_lft 1227sec preferred_lft 1227sec\n\t    inet6 fe80::a71d:1f6a:a0d1:7985/64 scope link noprefixroute\n\t       valid_lft forever preferred_lft forever\n\tMerlin\u00bb".data
def exclamationNotes : Str := "Include a space after the exclamation point. This command is useful so that you can execute system commands without having to leave the CLI.".data

def setListenerDescription : Str := "Set a configurable option".data
def setListenerUsage : Str := "set option value".data
def setListenerExample : Str := "".data
def setListenerNotes : Str := "Use tab completion to cycle through configurable options.".data
def setListenerSetupDescription : Str := "Set a configurable option".data
def setListenerSetupUsage : Str := "set option value".data
def setListenerSetupExample : Str := "Merlin[listeners]\u00bb use https\n\tMerlin[listeners][https]\u00bb set Name Merlin Demo Listener\n\t[+] set Name to: Merlin Demo Listener\n\tMerlin[listeners][https]\u00bb".data
def setListenerSetupNotes : Str := "Use tab completion to cycle through configurable options.".data
def setModuleDescription : Str := "set the value of a configurable module option".data
def setModuleExample : Str := "Merlin[modules][linux/x64/bash/exec/bash]\u00bb set Agent 1ca5e186-fadd-4b19-94ba-065ffaef9dfe \n\t[+] agent set to 1ca5e186-fadd-4b19-94ba-065ffaef9dfe\n\tMerlin[modules][linux/x64/bash/exec/bash]\u00bb set Command hostname\n\t[+] Command set to hostname\n\tMerlin[modules][linux/x64/bash/exec/bash]\u00bb show\n\t[i] \n\t\x27BASH\x27 module options\n\n\t\t   NAME   |                VALUE                 | REQUIRED |          DESCRIPTION            \n\t\t+---------+--------------------------------------+----------+--------------------------------+\n\t\t  Agent   | 1ca5e186-fadd-4b19-94ba-065ffaef9dfe | true     | Agent on which to run module    \n\t\t          |                                      |          | BASH                            \n\t\t  Command | hostname                             | true     | Command to run in BASH          \n\t\t          |                                      |          | terminal                        \n".data
def setModuleNotes : Str := "Use tab completion to cycle through configurable options.".data
def setModuleUsage : Str := "set key value".data

def netstatDescription : Str := "Get a list of network connections".data
def netstatUsage : Str := "netstat [-p tcp|udp]".data
def netstatExample : Str := "Merlin[agent][c1090dbc-f2f7-4d90-a241-86e0c0217786]\u00bb netstat\n\t[-] Created job JEFMANkdaU for agent c1090dbc-f2f7-4d90-a241-86e0c0217786\n\t[-] Results job JEFMANkdaU for agent c1090dbc-f2f7-4d90-a241-86e0c0217786\n\t[+]\n\tProto Local Addr              Foreign Addr            State        PID/Program name\n\tudp   0.0.0.0:123             0.0.0.0:0                            3272/svchost.exe\n\tudp   0.0.0.0:500             0.0.0.0:0                            3104/svchost.exe\n\tudp   0.0.0.0:3389            0.0.0.0:0                            984/svchost.exe\n\tudp6  :::123                  0.0.0.0:0                            3272/svchost.exe\n\tudp6  :::500                  0.0.0.0:0                            3104/svchost.exe\n\tudp6  :::3389                 0.0.0.0:0                            984/svchost.exe\n\ttcp   0.0.0.0:135             0.0.0.0:0               LISTEN       964/svchost.exe\n\ttcp   0.0.0.0:445             0.0.0.0:0               LISTEN       4/System\n\ttcp   0.0.0.0:3389            0.0.0.0:0               LISTEN       984/svchost.exe\n\ttcp   127.0.0.1:52945         127.0.0.1:5357          TIME_WAIT\n\ttcp   127.0.0.1:54441         127.0.0.1:5357          TIME_WAIT\n\ttcp   192.168.1.11:59757      72.21.91.29:80          CLOSE_WAIT   6496/SearchApp.exe\n\ttcp   192.168.1.11:59763      72.21.91.29:80          CLOSE_WAIT   12076/YourPhone.exe\n\ttcp6  :::135                  :::0                    LISTEN       964/svchost.exe\n\ttcp6  :::445                  :::0                    LISTEN       4/System\n\ttcp6  :::3389                 :::0                    LISTEN       984/svchost.exe".data
def netstatNotes : Str := "This command is only available on Windows. It uses the Windows API to enumerate network connections and listening ports. Without any arguments, the netstat command returns all TCP and UDP network connections.\n\tUse \x27netstat -p tcp\x27 to only return TCP connections and \x27netstat -p udp\x27 to only return UDP connections.".data

/-!
## Help bundles (`help.NewHelp(description, example, notes, usage)`)
-/

/-- `token.NewCommand` help. -/
def tokenHelp : Help := ⟨tokenDescription, tokenExample, tokenNotes, tokenUsage⟩

/-- `token.Command.Make` sub-help. -/
def tokenMakeHelp : Help := ⟨tokenMakeDescription, tokenMakeExample, tokenMakeNotes, tokenMakeUsage⟩

/-- `token.Command.Privs` sub-help. -/
def tokenPrivsHelp : Help := ⟨tokenPrivsDescription, tokenPrivsExample, tokenPrivsNotes, tokenPrivsUsage⟩

/-- `token.Command.Rev2Self` sub-help. -/
def tokenRev2SelfHelp : Help := ⟨tokenRev2SelfDescription, tokenRev2SelfExample, tokenRev2SelfNotes, tokenRev2SelfUsage⟩

/-- `token.Command.Steal` sub-help. -/
def tokenStealHelp : Help := ⟨tokenStealDescription, tokenStealExample, tokenStealNotes, tokenStealUsage⟩

/-- `token.Command.Whoami` sub-help. -/
def tokenWhoamiHelp : Help := ⟨tokenWhoamiDescription, tokenWhoamiExample, tokenWhoamiNotes, tokenWhoamiUsage⟩

/-- `execute_shellcode.NewCommand` help. -/
def execShellcodeHelp : Help := ⟨execShellcodeDescription, execShellcodeExample, execShellcodeNotes, execShellcodeUsage⟩

/-- `execute_shellcode.Command.self` sub-help. -/
def escSelfHelp : Help := ⟨escSelfDescription, escSelfExample, escSelfNotes, escSelfUsage⟩

/-- `execute_shellcode.Command.remote` sub-help. -/
def escRemoteHelp : Help := ⟨escRemoteDescription, escRemoteExample, escRemoteNotes, escRemoteUsage⟩

/-- `execute_shellcode.Command.rtlCreateUserThread` sub-help. -/
def escRtlHelp : Help := ⟨escRtlDescription, escRtlExample, escRtlNotes, escRtlUsage⟩

/-- `execute_shellcode.Command.userAPC` sub-help. -/
def escUserAPCHelp : Help := ⟨escUserAPCDescription, escUserAPCExample, escUserAPCNotes, escUserAPCUsage⟩

/-- `execute_assembly.NewCommand` help. -/
def execAssemblyHelp : Help := ⟨execAssemblyDescription, execAssemblyExample, execAssemblyNotes, execAssemblyUsage⟩

/-- `sharpgen.NewCommand` help. -/
def sharpgenHelp : Help := ⟨sharpgenDescription, sharpgenExample, sharpgenNotes, sharpgenUsage⟩

/-- `touch.NewCommand` help. -/
def touchHelp : Help := ⟨touchDescription, touchExample, touchNotes, touchUsage⟩

/-- `listener.NewCommand` help. -/
def listenerHelp : Help := ⟨listenerDescription, listenerExample, listenerNotes, listenerUsage⟩

/-- `listener.Command.List` sub-help. -/
def listenerListHelp : Help := ⟨listenerListDescription, listenerListExample, listenerListNotes, listenerListUsage⟩

/-- `listener.Command.Start` sub-help for the `start` sub-command. -/
def listenerStartHelp : Help := ⟨listenerStartDescription, listenerStartExample, listenerStartNotes, listenerStartUsage⟩

/-- `listener.Command.Start` sub-help for the `stop` sub-command. -/
def listenerStopHelp : Help := ⟨listenerStopDescription, listenerStopExample, listenerStopNotes, listenerStopUsage⟩

/-- `jobs.NewCommand` help. -/
def jobsHelp : Help := ⟨jobsDescription, jobsExample, jobsNotes, jobsUsage⟩

/-- `reload.NewCommand` help. -/
def reloadHelp : Help := ⟨reloadDescription, reloadExample, reloadNotes, reloadUsage⟩

/-- `back.NewCommand` help. -/
def backHelp : Help := ⟨backDescription, backExample, backNotes, backUsage⟩

/-- `exclamation.NewCommand` help. -/
def exclamationHelp : Help := ⟨exclamationDescription, exclamationExample, exclamationNotes, exclamationUsage⟩

/-- `set.NewCommand` help for the LISTENER menu. -/
def setListenerHelp : Help := ⟨setListenerDescription, setListenerExample, setListenerNotes, setListenerUsage⟩

/-- `set.NewCommand` help for the LISTENERSETUP menu. -/
def setListenerSetupHelp : Help := ⟨setListenerSetupDescription, setListenerSetupExample, setListenerSetupNotes, setListenerSetupUsage⟩

/-- `set.NewCommand` help for the MODULE menu. -/
def setModuleHelp : Help := ⟨setModuleDescription, setModuleExample, setModuleNotes, setModuleUsage⟩

/-- `netstat.NewCommand` help. -/
def netstatHelp : Help := ⟨netstatDescription, netstatExample, netstatNotes, netstatUsage⟩

/-!
## The `token` command (`commands/agent/windows/token/token.go`)
-/

/-- `token.Command.Make`. -/
def tokenMake (env : Env) (id : Str) (arguments : Str) : DoOut :=
  let args := goSplit ' ' arguments
  if args.length > 2 && isHelpArg (args.getD 2 []) then
    msgOut (newUserMessage .Info (helpFormatSub "token".data "make".data tokenMakeHelp))
  else if args.length < 4 then
    msgOut (newUserMessage .Info ("\x27token make\x27 command requires two arguments\n".data ++ tokenMakeHelp.Usage))
  else
    ({ message := some (env.rpcToken (args.drop 1)) }, [.rpcToken id (args.drop 1)])

/-- `token.Command.Privs`.  The source guards the PID validation with
`len(args) > 3`, so a lone PID argument (`token privs PID`, three tokens)
is forwarded to the RPC layer without the integer check. -/
def tokenPrivs (env : Env) (id : Str) (arguments : Str) : DoOut :=
  let args := goSplit ' ' arguments
  if args.length > 2 && isHelpArg (args.getD 2 []) then
    msgOut (newUserMessage .Info (helpFormatSub "token".data "privs".data tokenPrivsHelp))
  else if args.length > 3 then
    match goAtoi (args.getD 2 []) with
    | .error e =>
      msgOut (newErrorMessage ("there was an error converting \x27".data ++ args.getD 2 [] ++ "\x27 to an integer: ".data ++ e))
    | .ok _ => ({ message := some (env.rpcToken (args.drop 1)) }, [.rpcToken id (args.drop 1)])
  else
    ({ message := some (env.rpcToken (args.drop 1)) }, [.rpcToken id (args.drop 1)])

/-- `token.Command.Rev2Self`. -/
def tokenRev2Self (env : Env) (id : Str) (arguments : Str) : DoOut :=
  let args := goSplit ' ' arguments
  if args.length > 2 && isHelpArg (args.getD 2 []) then
    msgOut (newUserMessage .Info (helpFormatSub "token".data "rev2self".data tokenRev2SelfHelp))
  else
    ({ message := some (env.rpcToken (args.drop 1)) }, [.rpcToken id (args.drop 1)])

/-- `token.Command.Steal`. -/
def tokenSteal (env : Env) (id : Str) (arguments : Str) : DoOut :=
  let args := goSplit ' ' arguments
  if args.length < 3 then
    msgOut (newUserMessage .Info ("\x27token steal\x27 command requires one argument\n".data ++ tokenStealHelp.Usage))
  else if isHelpArg (args.getD 2 []) then
    msgOut (newUserMessage .Info (helpFormatSub "token".data "steal".data tokenStealHelp))
  else
    match goAtoi (args.getD 2 []) with
    | .error e =>
      msgOut (newErrorMessage ("there was an error converting \x27".data ++ args.getD 2 [] ++ "\x27 to an integer: ".data ++ e))
    | .ok _ => ({ message := some (env.rpcToken (args.drop 1)) }, [.rpcToken id (args.drop 1)])

/-- `token.Command.Whoami`. -/
def tokenWhoami (env : Env) (id : Str) (arguments : Str) : DoOut :=
  let args := goSplit ' ' arguments
  if args.length > 2 && isHelpArg (args.getD 2 []) then
    msgOut (newUserMessage .Info (helpFormatSub "token".data "whoami".data tokenWhoamiHelp))
  else
    ({ message := some (env.rpcToken (args.drop 1)) }, [.rpcToken id (args.drop 1)])

/-- `token.Command.Do`. -/
def tokenDo (env : Env) (id : Str) (arguments : Str) : DoOut :=
  let args := goSplit ' ' arguments
  if args.length < 2 then
    msgOut (newUserMessage .Info ("\x27token\x27 command requires at least one argument\n".data ++ tokenHelp.Usage))
  else
    let low := goToLower (args.getD 1 [])
    if isHelpArg (args.getD 1 []) then
      msgOut (newUserMessage .Info (helpFormat "token".data tokenHelp))
    else if low == "make".data then tokenMake env id arguments
    else if low == "privs".data then tokenPrivs env id arguments
    else if low == "rev2self".data then tokenRev2Self env id arguments
    else if low == "steal".data then tokenSteal env id arguments
    else if low == "whoami".data then tokenWhoami env id arguments
    else msgOut (newUserMessage .Info tokenHelp.Usage)

/-!
## The `execute-shellcode` command
(`commands/agent/windows/execute_shellcode/execute_shellcode.go`)
-/

/-- Panic text of a Go out-of-range string slice, raised by
`hexString[0:2]` when the string is shorter than two bytes. -/
def goSlicePanic : Str := "runtime error: slice bounds out of range".data

/-- `execute_shellcode.parseData`.  The source slices `hexString[0:2]`
before checking the length, so any joined input shorter than two bytes
that is not valid base64 raises a Go runtime panic — represented here by
`GoEx.panicked`.  Byte-prefix comparisons are modelled on characters,
which agrees with the byte view on every input whose first two bytes
could equal `0x` or `\x` (both ASCII). -/
def escParseData (strs : List Str) : GoEx (Except Str (List Nat)) :=
  let hexString := strs.flatten
  match base64Decode hexString with
  | .ok data => .ok (.ok data)
  | .error _ =>
    if utf8Len hexString < 2 then .panicked goSlicePanic
    else
      let hexString1 :=
        if hexString.take 2 == "0x".data then
          goReplaceAll " ".data [] (goReplaceAll ",".data [] (goReplaceAll "0x".data [] hexString))
        else hexString
      if utf8Len hexString1 < 2 then .panicked goSlicePanic
      else
        let hexString2 :=
          if hexString1.take 2 == "\\x".data then
            goReplaceAll " ".data [] (goReplaceAll ",".data [] (goReplaceAll "\\x".data [] hexString1))
          else hexString1
        .ok (hexDecode hexString2)

/-- UTF-8 bytes of one character. -/
def charUtf8Bytes (c : Char) : List Nat :=
  let n := c.toNat
  if n < 128 then [n]
  else if n < 2048 then [192 + n / 64, 128 + n % 64]
  else if n < 65536 then [224 + n / 4096, 128 + n / 64 % 64, 128 + n % 64]
  else [240 + n / 262144, 128 + n / 4096 % 64, 128 + n / 64 % 64, 128 + n % 64]

/-- UTF-8 bytes of a string: Go's `[]byte(s)`. -/
def strBytes (s : Str) : List Nat := (s.map charUtf8Bytes).flatten

/-- `execute_shellcode.parseShellcodeFile`. -/
def escParseShellcodeFile (env : Env) (filePath : Str) : GoEx (Except Str (List Nat)) :=
  match env.readFile filePath with
  | none => .ok (.error env.readFileErr)
  | some fileContents =>
    match escParseData [fileContents] with
    | .panicked msg => .panicked msg
    | .ok (.ok hexBytes) => .ok (.ok hexBytes)
    | .ok (.error _) =>
      match base64Decode fileContents with
      | .ok base64Data => .ok (.ok base64Data)
      | .error _ => .ok (.ok (strBytes fileContents))

/-- `execute_shellcode.parse`. -/
def escParse (env : Env) (input : Str) : GoEx (Except Str Str) :=
  match env.stat input with
  | none =>
    match escParseData [input] with
    | .panicked msg => .panicked msg
    | .ok (.ok data) => .ok (.ok (base64Encode data))
    | .ok (.error _) =>
      .ok (.error ("there was an error parsing \x27".data ++ input ++ "\x27 because is not a file path or hex data".data))
  | some isDir =>
    if isDir then
      .ok (.error ("a directory was provided instead of a file: ".data ++ input))
    else
      match escParseShellcodeFile env input with
      | .panicked msg => .panicked msg
      | .ok (.ok data) => .ok (.ok (base64Encode data))
      | .ok (.error e) => .ok (.error ("there was an error parsing the shellcode file: ".data ++ e))

/-- `execute_shellcode.Command.self`. -/
def escSelf (env : Env) (id : Str) (arguments : Str) : GoEx DoOut :=
  let args := goSplit ' ' arguments
  if args.length < 3 then
    .ok (msgOut (newUserMessage .Info ("\x27execute-shellcode self\x27 command requires at least two arguments\n".data ++ escSelfHelp.Usage)))
  else if args.length > 1 && isHelpArg (args.getD 1 []) then
    .ok (msgOut (newUserMessage .Info (helpFormatSub "execute-shellcode".data "self".data escSelfHelp)))
  else
    match escParse env (args.getD 2 []) with
    | .panicked msg => .panicked msg
    | .ok (.error e) =>
      .ok (msgOut (newErrorMessage ("there was an error parsing the provided shellcode: ".data ++ e)))
    | .ok (.ok shellcode) =>
      .ok ({ message := some (env.rpcExecuteShellcode [shellcode, args.getD 1 []]) },
        [.rpcExecuteShellcode id [shellcode, args.getD 1 []]])

/-- `execute_shellcode.Command.remote`. -/
def escRemote (env : Env) (id : Str) (arguments : Str) : GoEx DoOut :=
  let args := goSplit ' ' arguments
  if args.length > 2 && isHelpArg (args.getD 2 []) then
    .ok (msgOut (newUserMessage .Info (helpFormatSub "execute-shellcode".data "remote".data escRemoteHelp)))
  else if args.length < 4 then
    .ok (msgOut (newUserMessage .Info ("\x27execute-shellcode remote\x27 command requires at least two argument\n".data ++ execShellcodeHelp.Usage)))
  else
    match goAtoi (args.getD 2 []) with
    | .error e =>
      .ok (msgOut (newErrorMessage ("there was an error converting the PID to an integer: ".data ++ e)))
    | .ok _ =>
      match escParse env (args.getD 3 []) with
      | .panicked msg => .panicked msg
      | .ok (.error e) =>
        .ok (msgOut (newErrorMessage ("there was an error parsing the provided shellcode: ".data ++ e)))
      | .ok (.ok shellcode) =>
        .ok ({ message := some (env.rpcExecuteShellcode [shellcode, args.getD 1 [], args.getD 2 []]) },
          [.rpcExecuteShellcode id [shellcode, args.getD 1 [], args.getD 2 []]])

/-- `execute_shellcode.Command.rtlCreateUserThread`. -/
def escRtl (env : Env) (id : Str) (arguments : Str) : GoEx DoOut :=
  let args := goSplit ' ' arguments
  if args.length > 2 && isHelpArg (args.getD 2 []) then
    .ok (msgOut (newUserMessage .Info (helpFormatSub "execute-shellcode".data "rtlcreateuserthread".data escRtlHelp)))
  else if args.length < 4 then
    .ok (msgOut (newUserMessage .Info ("\x27execute-shellcode rtlcreateuserthread\x27 command requires at least two arguments\n".data ++ execShellcodeHelp.Usage)))
  else
    match goAtoi (args.getD 2 []) with
    | .error e =>
      .ok (msgOut (newErrorMessage ("there was an error converting the PID to an integer: ".data ++ e)))
    | .ok _ =>
      match escParse env (args.getD 3 []) with
      | .panicked msg => .panicked msg
      | .ok (.error e) =>
        .ok (msgOut (newErrorMessage ("there was an error parsing the provided shellcode: ".data ++ e)))
      | .ok (.ok shellcode) =>
        .ok ({ message := some (env.rpcExecuteShellcode [shellcode, args.getD 1 [], args.getD 2 []]) },
          [.rpcExecuteShellcode id [shellcode, args.getD 1 [], args.getD 2 []]])

/-- `execute_shellcode.Command.userAPC` (its help response uses the
top-level `'NAME' command help` heading, as in the source). -/
def escUserAPC (env : Env) (id : Str) (arguments : Str) : GoEx DoOut :=
  let args := goSplit ' ' arguments
  if args.length > 2 && isHelpArg (args.getD 2 []) then
    .ok (msgOut (newUserMessage .Info (helpFormat "execute-shellcode".data escUserAPCHelp)))
  else if args.length < 4 then
    .ok (msgOut (newUserMessage .Info ("\x27execute-shellcode userapc\x27 command requires at least two arguments\n".data ++ execShellcodeHelp.Usage)))
  else
    match goAtoi (args.getD 2 []) with
    | .error e =>
      .ok (msgOut (newErrorMessage ("there was an error converting the PID to an integer: ".data ++ e)))
    | .ok _ =>
      match escParse env (args.getD 3 []) with
      | .panicked msg => .panicked msg
      | .ok (.error e) =>
        .ok (msgOut (newErrorMessage ("there was an error parsing the provided shellcode: ".data ++ e)))
      | .ok (.ok shellcode) =>
        .ok ({ message := some (env.rpcExecuteShellcode [shellcode, args.getD 1 [], args.getD 2 []]) },
          [.rpcExecuteShellcode id [shellcode, args.getD 1 [], args.getD 2 []]])

/-- `execute_shellcode.Command.Do`. -/
def escDo (env : Env) (id : Str) (arguments : Str) : GoEx DoOut :=
  let args := goSplit ' ' arguments
  if args.length < 2 then
    .ok (msgOut (newUserMessage .Info ("\x27execute-shellcode\x27 command requires at least one argument\n".data ++ execShellcodeHelp.Usage)))
  else
    let low := goToLower (args.getD 1 [])
    if low == "self".data then escSelf env id arguments
    else if low == "remote".data then escRemote env id arguments
    else if low == "rtlcreateuserthread".data then escRtl env id arguments
    else if low == "userapc".data then escUserAPC env id arguments
    else if isHelpArg (args.getD 1 []) then
      .ok (msgOut (newUserMessage .Info (helpFormat "execute-shellcode".data execShellcodeHelp)))
    else
      .ok (msgOut (newUserMessage .Info execShellcodeHelp.Usage))

/-!
## The `execute-assembly`, `sharpgen`, and `touch` commands
(`commands/agent/windows/execute_assembly`, `commands/agent/windows/sharpgen`,
`commands/agent/all/touch`)
-/

/-- `execute_assembly.Command.Do`.  The SHA-256 hash the source computes
is only written to the log, which is unobservable here. -/
def execAssemblyDo (env : Env) (id : Str) (arguments : Str) : DoOut :=
  match shellwordsParse arguments with
  | .error e => msgOut (newErrorMessage ("there was an error parsing the arguments: ".data ++ e))
  | .ok args =>
    if args.length < 2 then
      msgOut (newUserMessage .Info ("\x27execute-assembly\x27 command requires at least one argument\n".data ++ execAssemblyHelp.Usage))
    else if args.length > 1 && isHelpArg (args.getD 1 []) then
      msgOut (newUserMessage .Info (helpFormat "execute-assembly".data execAssemblyHelp))
    else
      match env.stat (args.getD 1 []) with
      | none => msgOut (newErrorMessage ("the file path does not exist: ".data ++ args.getD 1 []))
      | some _ =>
        match env.readFile (args.getD 1 []) with
        | none =>
          msgOut (newErrorMessage ("there was an error reading the file at ".data ++ args.getD 1 [] ++ ": ".data ++ env.readFileErr))
        | some data =>
          let params := if args.length > 2 then args.getD 2 [] else []
          let spawnTo := if args.length > 3 then args.getD 3 [] else "C:\\WIndows\\System32\\dllhost.exe".data
          let spawnToArgs := if args.length > 4 then args.getD 4 [] else []
          let newArgs := [base64Encode (strBytes data), params, spawnTo, spawnToArgs]
          ({ message := some (env.rpcExecuteAssembly newArgs) }, [.rpcExecuteAssembly id newArgs])

/-- `sharpgen.Command.Do`. -/
def sharpgenDo (env : Env) (id : Str) (arguments : Str) : DoOut :=
  match shellwordsParse arguments with
  | .error e => msgOut (newErrorMessage ("there was an error parsing the arguments: ".data ++ e))
  | .ok args =>
    if args.length < 2 then
      msgOut (newUserMessage .Info ("\x27sharpgen\x27 command requires at least one argument\n".data ++ sharpgenHelp.Usage))
    else if isHelpArg (args.getD 1 []) then
      msgOut (newUserMessage .Info (helpFormat "sharpgen".data sharpgenHelp))
    else
      let args2 := if args.length < 3 then args ++ ["C:\\Windows\\System32\\dllhost.exe".data] else args
      ({ message := some (env.rpcSharpGen (args2.drop 1)) }, [.rpcSharpGen id (args2.drop 1)])

/-- `touch.Command.Do`.  Unlike the other commands, its
insufficient-arguments outcome is built with `message.NewErrorMessage`,
so it is Error-level. -/
def touchDo (env : Env) (id : Str) (arguments : Str) : DoOut :=
  match shellwordsParse arguments with
  | .error e => msgOut (newErrorMessage ("there was an error parsing the arguments: ".data ++ e))
  | .ok args =>
    if args.length > 1 && isHelpArg (args.getD 1 []) then
      msgOut (newUserMessage .Info (helpFormat "touch".data touchHelp))
    else if args.length < 3 then
      msgOut (newErrorMessage ("\x27touch\x27 command requires two arguments\n".data ++ touchHelp.Usage))
    else
      ({ message := some (env.rpcTouch (args.drop 1)) }, [.rpcTouch id (args.drop 1)])

/-!
## The `listener` command (`commands/agent/all/listener/listener.go`)
-/

/-- `listener.Command.List`. -/
def listenerList (env : Env) (id : Str) (arguments : Str) : DoOut :=
  let args := goSplit ' ' arguments
  if args.length > 2 && isHelpArg (args.getD 2 []) then
    msgOut (newUserMessage .Info (helpFormatSub "listener".data "list".data listenerListHelp))
  else
    ({ message := some (env.rpcListener (args.drop 1)) }, [.rpcListener id (args.drop 1)])

/-- The shared tail of `listener.Command.Start` once the sub-command
(`start` or `stop`) has selected its help block `h`. -/
def listenerStartCont (env : Env) (id : Str) (args : List Str) (sub : Str) (h : Help) : DoOut :=
  if args.length > 2 && isHelpArg (args.getD 2 []) then
    msgOut (newUserMessage .Info (helpFormatSub "listener".data sub h))
  else if args.length < 4 then
    msgOut (newUserMessage .Info ("\x27listener ".data ++ sub ++ "\x27 command requires two arguments\n".data ++ h.Usage))
  else
    let proto := goToLower (args.getD 2 [])
    if proto == "smb".data || proto == "tcp".data || proto == "udp".data then
      if proto == "tcp".data || proto == "udp".data then
        let addr := goSplit ':' (args.getD 3 [])
        if addr.length ≠ 2 then
          msgOut (newErrorMessage ("\x27".data ++ args.getD 3 [] ++ "\x27 is not a valid IP address and port:\n".data ++ h.Usage))
        else if netParseIP (addr.getD 0 []) == none then
          msgOut (newErrorMessage ("\x27".data ++ addr.getD 0 [] ++ "\x27 is not a valid IP address".data))
        else
          ({ message := some (env.rpcListener (args.drop 1)) }, [.rpcListener id (args.drop 1)])
      else
        ({ message := some (env.rpcListener (args.drop 1)) }, [.rpcListener id (args.drop 1)])
    else
      msgOut (newErrorMessage ("\x27".data ++ args.getD 2 [] ++ "\x27 is not a valid protocol".data))

/-- `listener.Command.Start` (handles both `start` and `stop`). -/
def listenerStart (env : Env) (id : Str) (arguments : Str) : DoOut :=
  let args := goSplit ' ' arguments
  if args.length < 2 then
    msgOut (newUserMessage .Info ("\x27listener\x27 command requires at least one argument\n".data ++ listenerHelp.Usage))
  else
    let low := goToLower (args.getD 1 [])
    if low == "start".data then listenerStartCont env id args "start".data listenerStartHelp
    else if low == "stop".data then listenerStartCont env id args "stop".data listenerStopHelp
    else
      msgOut (newErrorMessage ("unknown listener command \x27".data ++ args.getD 1 [] ++ "\x27\n".data ++ listenerHelp.Usage))

/-- `listener.Command.Do`. -/
def listenerDo (env : Env) (id : Str) (arguments : Str) : DoOut :=
  let args := goSplit ' ' arguments
  if args.length < 2 then
    msgOut (newUserMessage .Info ("\x27listener\x27 command requires at least one argument\n".data ++ listenerHelp.Usage))
  else
    let low := goToLower (args.getD 1 [])
    if low == "list".data then listenerList env id arguments
    else if low == "start".data || low == "stop".data then listenerStart env id arguments
    else if isHelpArg (args.getD 1 []) then
      msgOut (newUserMessage .Info (helpFormat "listener".data listenerHelp))
    else
      msgOut (newUserMessage .Info listenerHelp.Usage)

/-!
## The `jobs` command (`commands/multi/jobs/jobs.go`)
-/

/-- The row truncation `job.Command[:30]` guarded by
`len(job.Command) < 30` (the Go guard counts bytes; characters here). -/
def jobsTruncCommand (cmd : Str) : Str := if cmd.length < 30 then cmd else cmd.take 30

/-- `jobs.Command.Do`; the tablewriter rendering is the `renderTable`
oracle applied to the header and rows the source builds. -/
def jobsDo (env : Env) (m : Menu) (id : Str) (arguments : Str) : DoOut :=
  let args := goSplit ' ' arguments
  if args.length > 1 && isHelpArg (args.getD 1 []) then
    msgOut (newUserMessage .Info (helpFormat "jobs".data jobsHelp))
  else
    match m with
    | .AGENT =>
      match env.rpcGetAgentActiveJobs with
      | .error e => (msgResp (newErrorMessage e), [.rpcGetAgentActiveJobs id])
      | .ok jobs =>
        let data := jobs.map fun j => [j.ID, jobsTruncCommand j.Command, j.Status, j.Created, j.Sent]
        (msgResp (newUserMessage .Plain ("\n".data ++
            env.renderTable ["ID".data, "Command".data, "Status".data, "Created".data, "Sent".data] data)),
          [.rpcGetAgentActiveJobs id])
    | _ =>
      match env.rpcGetAllActiveJobs with
      | .error e => (msgResp (newErrorMessage e), [.rpcGetAllActiveJobs])
      | .ok jobs =>
        let data := jobs.map fun j => [j.AgentID, j.ID, jobsTruncCommand j.Command, j.Status, j.Created, j.Sent]
        (msgResp (newUserMessage .Plain ("\n".data ++
            env.renderTable ["Agent".data, "ID".data, "Command".data, "Status".data, "Created".data, "Sent".data] data)),
          [.rpcGetAllActiveJobs])

/-!
## The `set` command (`commands/multi/set/set.go`)
-/

/-- Membership test of the Go options map (`_, ok := options[key]`),
with the map modelled as an association list. -/
def setOptionsHas (opts : List (Str × Str)) (key : Str) : Bool :=
  opts.any (fun p => p.1 == key)

/-- The Go map assignment `options[key] = value` on the association-list
model. -/
def setOptionsUpdate (opts : List (Str × Str)) (key value : Str) : List (Str × Str) :=
  opts.map (fun p => if p.1 == key then (p.1, value) else p)

/-- Go's `%s` rendering of a string slice: `[a b c]`. -/
def goSliceFmt (l : List Str) : Str :=
  "[".data ++ (l.intersperse " ".data).flatten ++ "]".data

/-- `set.Command.DoListener`. -/
def setDoListener (env : Env) (id : Str) (arguments : Str) : DoOut :=
  let args := goSplit ' ' arguments
  if args.length > 1 && isHelpArg (args.getD 1 []) then
    msgOut (newUserMessage .Info (helpFormat "set".data setListenerHelp))
  else if args.length < 3 then
    msgOut (newUserMessage .Info setListenerHelp.Usage)
  else
    ({ message := some (env.rpcListenerSetOption (args.drop 1)) }, [.rpcListenerSetOption id (args.drop 1)])

/-- `set.Command.DoListenerSetup`: stores `args[2]` as the option's new
value (any later tokens are not consulted) and reports `args[2]` in the
Success message. -/
def setDoListenerSetup (env : Env) (id : Str) (arguments : Str) : DoOut :=
  let args := goSplit ' ' arguments
  if args.length > 1 && isHelpArg (args.getD 1 []) then
    msgOut (newUserMessage .Info (helpFormat "set".data setListenerSetupHelp))
  else if args.length < 3 then
    msgOut (newUserMessage .Info setListenerSetupHelp.Usage)
  else
    match env.listenerGet with
    | none =>
      msgOut (newErrorMessage ("there was an error getting the listener for ID ".data ++ id ++ ": ".data ++ env.listenerGetErr))
    | some options =>
      if !setOptionsHas options (args.getD 1 []) then
        msgOut (newUserMessage .Warn ("\x27".data ++ args.getD 1 [] ++ "\x27 is not a valid option for this listener".data))
      else
        let updated := setOptionsUpdate options (args.getD 1 []) (args.getD 2 [])
        match env.listenerUpdate updated with
        | some e =>
          (msgResp (newErrorMessage ("there was an error updating the \x27".data ++ args.getD 1 [] ++
              "\x27 option for listener ID ".data ++ id ++ ": ".data ++ e)),
            [.repoUpdateListener id updated])
        | none =>
          (msgResp (newUserMessage .Success ("set \x27".data ++ args.getD 1 [] ++ "\x27 to: ".data ++ args.getD 2 [])),
            [.repoUpdateListener id updated])

/-- `set.Command.DoModule`: updates the option to `args[2]` (any later
tokens are not consulted) and reports `args[2]` in the Success message. -/
def setDoModule (env : Env) (id : Str) (arguments : Str) : DoOut :=
  let args := goSplit ' ' arguments
  if args.length > 1 && isHelpArg (args.getD 1 []) then
    msgOut (newUserMessage .Info (helpFormat "set".data setModuleHelp))
  else if args.length < 3 then
    msgOut (newUserMessage .Info setModuleHelp.Usage)
  else
    match env.moduleUpdateOption (args.getD 1 []) (args.getD 2 []) with
    | some e =>
      (msgResp (newErrorMessage ("pkg/cli/commands/set.DoModule(): there was an error setting the \x27".data ++
          args.getD 1 [] ++ "\x27 to \x27".data ++ goSliceFmt (args.drop 2) ++ "\x27: ".data ++ e)),
        [.repoUpdateModuleOption id (args.getD 1 []) (args.getD 2 [])])
    | none =>
      (msgResp (newUserMessage .Success ("set \x27".data ++ args.getD 1 [] ++ "\x27 to: ".data ++ args.getD 2 [])),
        [.repoUpdateModuleOption id (args.getD 1 []) (args.getD 2 [])])

/-- `set.Command.Do`: dispatches on the menu; other menus fall through to
the zero-value Response. -/
def setDo (env : Env) (m : Menu) (id : Str) (arguments : Str) : DoOut :=
  match m with
  | .LISTENER => setDoListener env id arguments
  | .LISTENERSETUP => setDoListenerSetup env id arguments
  | .MODULE => setDoModule env id arguments
  | _ => ({}, [])

/-!
## The `reload`, `back`, `!`, and `netstat` commands
(`commands/module/reload`, `commands/all/back`, `commands/all/exclamation`,
and the `netstat` command source)
-/

/-- `reload.Command.Do`. -/
def reloadDo (env : Env) (id : Str) (arguments : Str) : DoOut :=
  let args := goSplit ' ' arguments
  if args.length > 1 && isHelpArg (args.getD 1 []) then
    msgOut (newUserMessage .Info (helpFormat "reload".data reloadHelp))
  else
    match env.moduleGet with
    | none =>
      msgOut (newErrorMessage ("pkg/cli/commands/reload.DoModule(): there was an error getting module ID ".data ++
        id ++ " from the repository: ".data ++ env.moduleGetErr))
    | some moduleName =>
      match env.moduleUpdateOption "agent".data [] with
      | some e =>
        (msgResp (newErrorMessage ("pkg/cli/commands/reload.DoModule(): there was an error resetting the agent ID: ".data ++ e)),
          [.repoUpdateModuleOption id "agent".data []])
      | none =>
        match env.moduleReload with
        | some e =>
          (msgResp (newErrorMessage ("pkg/cli/commands/reload.DoModule(): there was an error reloading the module: ".data ++ e)),
            [.repoUpdateModuleOption id "agent".data [], .repoReloadModule id])
        | none =>
          (msgResp (newUserMessage .Success ("The \x27".data ++ moduleName ++ "\x27 module was reloaded".data)),
            [.repoUpdateModuleOption id "agent".data [], .repoReloadModule id])

/-- The prompt `back` installs with the LISTENERS menu. -/
def listenersPrompt : Str := "\x1b[31mMerlin[\x1b[32mlisteners\x1b[31m]\u00bb\x1b[0m ".data

/-- The prompt `back` installs with the MODULES menu. -/
def modulesPrompt : Str := "\x1b[31mMerlin[\x1b[32mmodules\x1b[31m]\u00bb\x1b[0m ".data

/-- The prompt `back` installs with the MAIN menu. -/
def mainPrompt : Str := "\x1b[31mMerlin\u00bb\x1b[0m ".data

/-- `back.Command.Do`: LISTENERSETUP and LISTENER go to LISTENERS,
MODULE goes to MODULES, and every other menu goes to MAIN; no message is
set on the transition branches. -/
def backDo (m : Menu) (arguments : Str) : DoOut :=
  let args := goSplit ' ' arguments
  if args.length > 1 && isHelpArg (args.getD 1 []) then
    msgOut (newUserMessage .Info (helpFormat "back".data backHelp))
  else
    match m with
    | .LISTENERSETUP | .LISTENER => ({ menu := some .LISTENERS, prompt := some listenersPrompt }, [])
    | .MODULE => ({ menu := some .MODULES, prompt := some modulesPrompt }, [])
    | _ => ({ menu := some .MAIN, prompt := some mainPrompt }, [])

/-- Decimal digits of a natural number (fuel-driven). -/
def natToStrAux : Nat → Nat → List Char → List Char
  | 0, _, acc => acc
  | fuel + 1, n, acc =>
    if n < 10 then Char.ofNat (48 + n) :: acc
    else natToStrAux fuel (n / 10) (Char.ofNat (48 + n % 10) :: acc)

/-- Decimal rendering of a natural number (Go's `%d` for the pid). -/
def natToStr (n : Nat) : Str := natToStrAux (n + 1) n []

/-- `exclamation.Command.Do` (the `!` command): runs the rest of the line
as a local process via the `execCombinedOutput` oracle, modelling
`exec.Cmd.CombinedOutput` as (started process id, combined output,
error). -/
def exclamationDo (env : Env) (id : Str) (arguments : Str) : DoOut :=
  match shellwordsParse arguments with
  | .error e => msgOut (newErrorMessage ("there was an error parsing the arguments: ".data ++ e))
  | .ok args =>
    if args.length < 2 then
      msgOut (newUserMessage .Info ("\x27!\x27 command requires at least one argument\n".data ++ exclamationHelp.Usage))
    else if args.length > 1 && isHelpArg (args.getD 1 []) then
      msgOut (newUserMessage .Info (helpFormat "!".data exclamationHelp))
    else
      let argv := args.drop 1
      let out := env.execCombinedOutput argv
      let data :=
        match out.1 with
        | some pid =>
          "Executed \x27".data ++ args.getD 1 [] ++ "\x27 command on the local system with a process ID of ".data ++
            natToStr pid ++ "\n\n".data ++ out.2.1
        | none => "Executed \x27".data ++ args.getD 1 [] ++ "\x27 command on the local system\n\n".data ++ out.2.1
      match out.2.2 with
      | some e => (msgResp (newUserMessage .Warn (data ++ "\n".data ++ e)), [.execLocal argv])
      | none => (msgResp (newUserMessage .Success data), [.execLocal argv])

/-- `netstat.Command.Do`.  Inside the `len(args) > 1` guard the `-p` case
re-checks `len(args) < 2`, which can never hold there; the Warn branch is
kept for fidelity. -/
def netstatDo (env : Env) (id : Str) (arguments : Str) : DoOut :=
  let args := goSplit ' ' arguments
  if args.length > 1 then
    let low := goToLower (args.getD 1 [])
    if isHelpArg (args.getD 1 []) then
      msgOut (newUserMessage .Info (helpFormat "netstat".data netstatHelp))
    else if low == "-p".data then
      if args.length < 2 then
        msgOut (newUserMessage .Warn "Invalid argument for -p. Valid arguments are \x27tcp\x27 or \x27udp\x27.".data)
      else
        ({ message := some (env.rpcNetstat (args.drop 1)) }, [.rpcNetstat id (args.drop 1)])
    else
      msgOut (newUserMessage .Info netstatHelp.Usage)
  else
    ({ message := some (env.rpcNetstat (args.drop 1)) }, [.rpcNetstat id (args.drop 1)])

/-!
## The command set and its registry metadata
-/

/-- The commands of the repository. -/
inductive Cmd
  | token
  | executeShellcode
  | executeAssembly
  | sharpgen
  | touch
  | listener
  | jobs
  | set
  | reload
  | back
  | exclamation
  | netstat
deriving DecidableEq, Repr

/-- `Command.String()`: the registered name of each command. -/
def cmdName : Cmd → Str
  | .token => "token".data
  | .executeShellcode => "execute-shellcode".data
  | .executeAssembly => "execute-assembly".data
  | .sharpgen => "sharpgen".data
  | .touch => "touch".data
  | .listener => "listener".data
  | .jobs => "jobs".data
  | .set => "set".data
  | .reload => "reload".data
  | .back => "back".data
  | .exclamation => "!".data
  | .netstat => "netstat".data

/-- The `cmd.menus` slice each `NewCommand` registers. -/
def cmdMenus : Cmd → List Menu
  | .token => [.AGENT]
  | .executeShellcode => [.AGENT]
  | .executeAssembly => [.AGENT]
  | .sharpgen => [.AGENT]
  | .touch => [.AGENT]
  | .listener => [.AGENT]
  | .jobs => [.AGENT, .MAIN]
  | .set => [.LISTENER, .LISTENERSETUP, .MODULE]
  | .reload => [.MODULE]
  | .back => [.ALLMENUS]
  | .exclamation => [.ALLMENUS]
  | .netstat => [.AGENT]

/-- The loop body shared by most `Command.Menu` implementations:
`v == m || v == menu.ALLMENUS` over the registered menus. -/
def menuLoop (menus : List Menu) (m : Menu) : Bool :=
  menus.any (fun v => v == m || v == .ALLMENUS)

/-- `Command.Menu` per command.  `jobs.Command.Menu` omits the ALLMENUS
test (`v == m` only) and `back.Command.Menu` returns true
unconditionally, as in their sources. -/
def cmdMenuFn : Cmd → Menu → Bool
  | .jobs => fun m => (cmdMenus .jobs).any (fun v => v == m)
  | .back => fun _ => true
  | c => menuLoop (cmdMenus c)

/-- Modelled from the spec: the display name of a menu, used only by the
fallback branch of `set.Command.Help` (the exact Go rendering of the menu
constants is not in the provided sources; no claim depends on it). -/
def menuName : Menu → Str
  | .ALLMENUS => "allmenus".data
  | .MAIN => "main".data
  | .AGENT => "agent".data
  | .LISTENER => "listener".data
  | .LISTENERS => "listeners".data
  | .LISTENERSETUP => "listenersetup".data
  | .MODULE => "module".data
  | .MODULES => "modules".data

/-- `set.Command.Help`: the per-menu help map with the source's fallback
for menus without an entry. -/
def setHelpFn (m : Menu) : Help :=
  match m with
  | .LISTENER => setListenerHelp
  | .LISTENERSETUP => setListenerSetupHelp
  | .MODULE => setModuleHelp
  | _ =>
    ⟨"the \x27info\x27 command\x27s Help structure does not exist for the ".data ++ menuName m ++ " menu".data,
      [], [], []⟩

/-- `Command.Help` per command: every command returns its fixed help
block except `set`, whose help varies with the menu. -/
def cmdHelp : Cmd → Menu → Help
  | .token, _ => tokenHelp
  | .executeShellcode, _ => execShellcodeHelp
  | .executeAssembly, _ => execAssemblyHelp
  | .sharpgen, _ => sharpgenHelp
  | .touch, _ => touchHelp
  | .listener, _ => listenerHelp
  | .jobs, _ => jobsHelp
  | .set, m => setHelpFn m
  | .reload, _ => reloadHelp
  | .back, _ => backHelp
  | .exclamation, _ => exclamationHelp
  | .netstat, _ => netstatHelp

/-- How each command tokenizes its argument line: `touch`,
`execute-assembly`, `sharpgen`, and `!` use go-shellwords; every other
command splits on single spaces. -/
def cmdTokenize (c : Cmd) (s : Str) : Except Str (List Str) :=
  match c with
  | .touch | .executeAssembly | .sharpgen | .exclamation => shellwordsParse s
  | _ => .ok (goSplit ' ' s)

/-- The top-level minimum token count (command name included) each
command's `Do` demands before doing real work; commands without an
arity check have 0. -/
def cmdMinArgs : Cmd → Nat
  | .token => 2
  | .executeShellcode => 2
  | .executeAssembly => 2
  | .sharpgen => 2
  | .touch => 3
  | .listener => 2
  | .jobs => 0
  | .set => 3
  | .reload => 0
  | .back => 0
  | .exclamation => 2
  | .netstat => 0

/-- `Command.Do` per command, as one dispatcher. -/
def cmdDo (c : Cmd) (env : Env) (m : Menu) (id : Str) (arguments : Str) : GoEx DoOut :=
  match c with
  | .token => .ok (tokenDo env id arguments)
  | .executeShellcode => escDo env id arguments
  | .executeAssembly => .ok (execAssemblyDo env id arguments)
  | .sharpgen => .ok (sharpgenDo env id arguments)
  | .touch => .ok (touchDo env id arguments)
  | .listener => .ok (listenerDo env id arguments)
  | .jobs => .ok (jobsDo env m id arguments)
  | .set => .ok (setDo env m id arguments)
  | .reload => .ok (reloadDo env id arguments)
  | .back => .ok (backDo m arguments)
  | .exclamation => .ok (exclamationDo env id arguments)
  | .netstat => .ok (netstatDo env id arguments)

/-- The full help text a command renders for its own help aliases,
per menu (only `set` varies with the menu). -/
def cmdHelpText (c : Cmd) (m : Menu) : Str := helpFormat (cmdName c) (cmdHelp c m)

/-- The menu transition of a `GoEx` dispatch result (`none` when the
dispatch panicked or requested no transition). -/
def resultMenu : GoEx DoOut → Option Menu
  | .panicked _ => none
  | .ok r => r.1.menu

/-- A trivial environment for concrete evaluations: all RPC stubs answer
a Plain empty message, the filesystem is empty, repositories are empty,
and local execution starts nothing. -/
def defaultEnv : Env where
  rpcToken := fun _ => ⟨.Plain, []⟩
  rpcListener := fun _ => ⟨.Plain, []⟩
  rpcExecuteShellcode := fun _ => ⟨.Plain, []⟩
  rpcExecuteAssembly := fun _ => ⟨.Plain, []⟩
  rpcSharpGen := fun _ => ⟨.Plain, []⟩
  rpcTouch := fun _ => ⟨.Plain, []⟩
  rpcNetstat := fun _ => ⟨.Plain, []⟩
  rpcListenerSetOption := fun _ => ⟨.Plain, []⟩
  rpcGetAgentActiveJobs := .ok []
  rpcGetAllActiveJobs := .ok []
  stat := fun _ => none
  readFile := fun _ => none
  readFileErr := "read error".data
  renderTable := fun _ _ => []
  execCombinedOutput := fun _ => (none, [], none)
  listenerGet := none
  listenerGetErr := "listener not found".data
  listenerUpdate := fun _ => none
  moduleGet := none
  moduleGetErr := "module not found".data
  moduleUpdateOption := fun _ _ => none
  moduleReload := none

example : tokenDo defaultEnv [] "token help".data =
    msgOut (newUserMessage .Info (helpFormat "token".data tokenHelp)) := by decide
example : tokenDo defaultEnv [] "token privs abc".data =
    ({ message := some (defaultEnv.rpcToken ["privs".data, "abc".data]) },
      [.rpcToken [] ["privs".data, "abc".data]]) := by decide
example : (tokenDo defaultEnv [] "token steal abc".data).2 = [] := by decide
example : escDo defaultEnv [] "execute-shellcode self a".data = .panicked goSlicePanic := by decide
example : touchDo defaultEnv [] "touch".data =
    msgOut (newErrorMessage ("\x27touch\x27 command requires two arguments\n".data ++ touchHelp.Usage)) := by decide
example : (backDo .LISTENERSETUP "back".data).1.menu = some .LISTENERS := by decide
example : (backDo .MODULES "back".data).1.menu = some .MAIN := by decide
example : (listenerDo defaultEnv [] "listener start udp not-an-ip:8888".data).2 = [] := by decide
example : (listenerDo defaultEnv [] "listener start tcp 127.0.0.1:x".data).2 =
    [.rpcListener [] ["start".data, "tcp".data, "127.0.0.1:x".data]] := by decide

/-!
## Theorems
-/

theorem strContains_of_parts (hay p needle q : Str) (h : hay = p ++ needle ++ q) :
    strContains hay needle := ⟨p, q, h⟩

theorem helpFormat_contains_all (n : Str) (h : Help) :
    strContains (helpFormat n h) h.Description ∧ strContains (helpFormat n h) h.Usage ∧
      strContains (helpFormat n h) h.Example ∧ strContains (helpFormat n h) h.Notes := by
  refine ⟨⟨"\x27".data ++ n ++ "\x27 command help\n\nDescription:\n\t".data,
      "\nUsage:\n\t".data ++ h.Usage ++ "\nExample:\n\t".data ++ h.Example ++ "\nNotes:\n\t".data ++ h.Notes, ?_⟩,
    ⟨"\x27".data ++ n ++ "\x27 command help\n\nDescription:\n\t".data ++ h.Description ++ "\nUsage:\n\t".data,
      "\nExample:\n\t".data ++ h.Example ++ "\nNotes:\n\t".data ++ h.Notes, ?_⟩,
    ⟨"\x27".data ++ n ++ "\x27 command help\n\nDescription:\n\t".data ++ h.Description ++ "\nUsage:\n\t".data ++ h.Usage ++ "\nExample:\n\t".data,
      "\nNotes:\n\t".data ++ h.Notes, ?_⟩,
    ⟨"\x27".data ++ n ++ "\x27 command help\n\nDescription:\n\t".data ++ h.Description ++ "\nUsage:\n\t".data ++ h.Usage ++ "\nExample:\n\t".data ++ h.Example ++ "\nNotes:\n\t".data,
      [], ?_⟩⟩ <;>
  simp [helpFormat, List.append_assoc]

/-- C7: for every command and every menu, the command's `Menu` predicate
holds exactly when the menu is a member of the command's registered menu
set or that set contains the ALLMENUS sentinel; in particular an
ALLMENUS-tagged command supports every menu and a finite-set command
supports exactly its members. -/
theorem C7_supports_menu_iff (c : Cmd) (m : Menu) :
    cmdMenuFn c m = true ↔ (m ∈ cmdMenus c ∨ Menu.ALLMENUS ∈ cmdMenus c) := by
  cases c <;> cases m <;> decide

/-- C2 (refuting evaluation): parsing the shellcode argument of
`execute-shellcode self a` — a one-character argument that is neither an
existing file nor valid base64 — does not produce an Error-level
Response: `parseData` slices `hexString[0:2]` on a one-byte string and
the dispatch ends in a Go runtime panic. -/
theorem C2_parse_panics_on_short_input :
    cmdDo .executeShellcode defaultEnv .AGENT [] "execute-shellcode self a".data = .panicked goSlicePanic
    ∧ escParseData ["a".data] = .panicked goSlicePanic := by
  exact ⟨by decide, by decide⟩

/-- C5 (refuting evaluation): `token steal` with a non-numeric PID is
rejected client-side with an Error-level Response and no RPC call, but
`token privs abc` — the same non-numeric PID shape — skips the integer
validation (the source guards it with `len(args) > 3` instead of
`len(args) > 2`) and invokes `rpc.Token` with the unvalidated argument. -/
theorem C5_privs_skips_pid_validation (env : Env) (id : Str) :
    cmdDo .token env .AGENT id "token privs abc".data =
      .ok ({ message := some (env.rpcToken ["privs".data, "abc".data]) },
        [.rpcToken id ["privs".data, "abc".data]])
    ∧ cmdDo .token env .AGENT id "token steal abc".data =
      .ok (msgOut (newErrorMessage ("there was an error converting \x27abc\x27 to an integer: ".data ++
        ("strconv.Atoi: parsing ".data ++ [chDQuote] ++ "abc".data ++ [chDQuote] ++ ": invalid syntax".data)))) := by
  exact ⟨rfl, rfl⟩

/-- C3 (counterexample): from the LISTENERSETUP menu, `back` transitions
to LISTENERS, not to MAIN as the claim states. -/
theorem C3_back_listenersetup_counterexample :
    cmdDo .back defaultEnv .LISTENERSETUP [] "back".data =
      .ok ({ menu := some .LISTENERS, prompt := some listenersPrompt }, [])
    ∧ Menu.LISTENERS ≠ Menu.MAIN := by
  exact ⟨rfl, by decide⟩

/-- The menu `back` transitions to from each menu (the switch in
`back.Command.Do`). -/
def backTargetMenu : Menu → Menu
  | .LISTENERSETUP | .LISTENER => .LISTENERS
  | .MODULE => .MODULES
  | _ => .MAIN

/-- The prompt `back` installs from each menu (the switch in
`back.Command.Do`). -/
def backTargetPrompt : Menu → Str
  | .LISTENERSETUP | .LISTENER => listenersPrompt
  | .MODULE => modulesPrompt
  | _ => mainPrompt

/-- C3 (amended): `back` maps LISTENERSETUP and LISTENER to LISTENERS,
MODULE to MODULES, and every other menu (MODULES and LISTENERS included)
to MAIN; the Response carries no message, only the transition and a
prompt. -/
theorem C3_back_menu_transitions (env : Env) (m : Menu) (id : Str) :
    cmdDo .back env m id "back".data =
      .ok ({ message := none, menu := some (backTargetMenu m), prompt := some (backTargetPrompt m) }, []) := by
  cases m <;> rfl

/-!
### No command's Response ever carries the ALLMENUS sentinel (C9)
-/

theorem tokenMake_menu_none (env : Env) (id arguments : Str) :
    (tokenMake env id arguments).1.menu = none := by
  unfold tokenMake; dsimp only; repeat' split <;> try rfl

theorem tokenPrivs_menu_none (env : Env) (id arguments : Str) :
    (tokenPrivs env id arguments).1.menu = none := by
  unfold tokenPrivs; dsimp only; repeat' split <;> try rfl

theorem tokenRev2Self_menu_none (env : Env) (id arguments : Str) :
    (tokenRev2Self env id arguments).1.menu = none := by
  unfold tokenRev2Self; dsimp only; repeat' split <;> try rfl

theorem tokenSteal_menu_none (env : Env) (id arguments : Str) :
    (tokenSteal env id arguments).1.menu = none := by
  unfold tokenSteal; dsimp only; repeat' split <;> try rfl

theorem tokenWhoami_menu_none (env : Env) (id arguments : Str) :
    (tokenWhoami env id arguments).1.menu = none := by
  unfold tokenWhoami; dsimp only; repeat' split <;> try rfl

theorem tokenDo_menu_none (env : Env) (id arguments : Str) :
    (tokenDo env id arguments).1.menu = none := by
  unfold tokenDo; dsimp only
  repeat' split
  all_goals first
    | rfl
    | exact tokenMake_menu_none env id arguments
    | exact tokenPrivs_menu_none env id arguments
    | exact tokenRev2Self_menu_none env id arguments
    | exact tokenSteal_menu_none env id arguments
    | exact tokenWhoami_menu_none env id arguments

theorem escSelf_menu_none (env : Env) (id arguments : Str) :
    resultMenu (escSelf env id arguments) = none := by
  unfold escSelf; dsimp only; repeat' split <;> try rfl

theorem escRemote_menu_none (env : Env) (id arguments : Str) :
    resultMenu (escRemote env id arguments) = none := by
  unfold escRemote; dsimp only; repeat' split <;> try rfl

theorem escRtl_menu_none (env : Env) (id arguments : Str) :
    resultMenu (escRtl env id arguments) = none := by
  unfold escRtl; dsimp only; repeat' split <;> try rfl

theorem escUserAPC_menu_none (env : Env) (id arguments : Str) :
    resultMenu (escUserAPC env id arguments) = none := by
  unfold escUserAPC; dsimp only; repeat' split <;> try rfl

theorem escDo_menu_none (env : Env) (id arguments : Str) :
    resultMenu (escDo env id arguments) = none := by
  unfold escDo; dsimp only
  repeat' split
  all_goals first
    | rfl
    | exact escSelf_menu_none env id arguments
    | exact escRemote_menu_none env id arguments
    | exact escRtl_menu_none env id arguments
    | exact escUserAPC_menu_none env id arguments

theorem execAssemblyDo_menu_none (env : Env) (id arguments : Str) :
    (execAssemblyDo env id arguments).1.menu = none := by
  unfold execAssemblyDo; dsimp only; repeat' split <;> try rfl

theorem sharpgenDo_menu_none (env : Env) (id arguments : Str) :
    (sharpgenDo env id arguments).1.menu = none := by
  unfold sharpgenDo; dsimp only; repeat' split <;> try rfl

theorem touchDo_menu_none (env : Env) (id arguments : Str) :
    (touchDo env id arguments).1.menu = none := by
  unfold touchDo; dsimp only; repeat' split <;> try rfl

theorem listenerList_menu_none (env : Env) (id arguments : Str) :
    (listenerList env id arguments).1.menu = none := by
  unfold listenerList; dsimp only; repeat' split <;> try rfl

theorem listenerStartCont_menu_none (env : Env) (id : Str) (args : List Str) (sub : Str) (h : Help) :
    (listenerStartCont env id args sub h).1.menu = none := by
  unfold listenerStartCont; dsimp only; repeat' split <;> try rfl

theorem listenerStart_menu_none (env : Env) (id arguments : Str) :
    (listenerStart env id arguments).1.menu = none := by
  unfold listenerStart; dsimp only
  repeat' split
  all_goals first
    | rfl
    | apply listenerStartCont_menu_none

theorem listenerDo_menu_none (env : Env) (id arguments : Str) :
    (listenerDo env id arguments).1.menu = none := by
  unfold listenerDo; dsimp only
  repeat' split
  all_goals first
    | rfl
    | exact listenerList_menu_none env id arguments
    | exact listenerStart_menu_none env id arguments

theorem jobsDo_menu_none (env : Env) (m : Menu) (id arguments : Str) :
    (jobsDo env m id arguments).1.menu = none := by
  unfold jobsDo; dsimp only; repeat' split <;> try rfl

theorem setDoListener_menu_none (env : Env) (id arguments : Str) :
    (setDoListener env id arguments).1.menu = none := by
  unfold setDoListener; dsimp only; repeat' split <;> try rfl

theorem setDoListenerSetup_menu_none (env : Env) (id arguments : Str) :
    (setDoListenerSetup env id arguments).1.menu = none := by
  unfold setDoListenerSetup; dsimp only; repeat' split <;> try rfl

theorem setDoModule_menu_none (env : Env) (id arguments : Str) :
    (setDoModule env id arguments).1.menu = none := by
  unfold setDoModule; dsimp only; repeat' split <;> try rfl

theorem setDo_menu_none (env : Env) (m : Menu) (id arguments : Str) :
    (setDo env m id arguments).1.menu = none := by
  unfold setDo
  repeat' split
  all_goals first
    | rfl
    | exact setDoListener_menu_none env id arguments
    | exact setDoListenerSetup_menu_none env id arguments
    | exact setDoModule_menu_none env id arguments

theorem reloadDo_menu_none (env : Env) (id arguments : Str) :
    (reloadDo env id arguments).1.menu = none := by
  unfold reloadDo; dsimp only; repeat' split <;> try rfl

theorem exclamationDo_menu_none (env : Env) (id arguments : Str) :
    (exclamationDo env id arguments).1.menu = none := by
  unfold exclamationDo; dsimp only; repeat' split <;> try rfl

theorem netstatDo_menu_none (env : Env) (id arguments : Str) :
    (netstatDo env id arguments).1.menu = none := by
  unfold netstatDo; dsimp only; repeat' split <;> try rfl

theorem backDo_menu_concrete (m : Menu) (arguments : Str) :
    (backDo m arguments).1.menu = none ∨
      (backDo m arguments).1.menu = some Menu.LISTENERS ∨
      (backDo m arguments).1.menu = some Menu.MODULES ∨
      (backDo m arguments).1.menu = some Menu.MAIN := by
  unfold backDo; dsimp only
  repeat' split
  all_goals simp [msgOut, msgResp]

/-- C9: no command's `Do` ever returns a Response whose menu field is the
ALLMENUS sentinel — for every command, menu, identifier and argument
line, a dispatch that requests a menu transition names a concrete menu
(back names LISTENERS, MODULES or MAIN; every other command requests no
transition), so applying Responses keeps the active menu concrete. -/
theorem C9_no_allmenus_transition (c : Cmd) (env : Env) (m : Menu) (id arguments : Str) :
    resultMenu (cmdDo c env m id arguments) ≠ some Menu.ALLMENUS := by
  cases c
  case token => simp [cmdDo, resultMenu, tokenDo_menu_none]
  case executeShellcode =>
    have := escDo_menu_none env id arguments
    simp [cmdDo, this]
  case executeAssembly => simp [cmdDo, resultMenu, execAssemblyDo_menu_none]
  case sharpgen => simp [cmdDo, resultMenu, sharpgenDo_menu_none]
  case touch => simp [cmdDo, resultMenu, touchDo_menu_none]
  case listener => simp [cmdDo, resultMenu, listenerDo_menu_none]
  case jobs => simp [cmdDo, resultMenu, jobsDo_menu_none]
  case set => simp [cmdDo, resultMenu, setDo_menu_none]
  case reload => simp [cmdDo, resultMenu, reloadDo_menu_none]
  case exclamation => simp [cmdDo, resultMenu, exclamationDo_menu_none]
  case netstat => simp [cmdDo, resultMenu, netstatDo_menu_none]
  case back =>
    rcases backDo_menu_concrete m arguments with h | h | h | h <;>
      simp [cmdDo, resultMenu, h]

/-!
### Help aliases render the full help block (C1)
-/

theorem helpArg_getElem?_getD (args : List Str) (hhelp : isHelpArg (args.getD 1 []) = true) :
    isHelpArg (args[1]?.getD []) = true := by
  rw [← List.getD_eq_getElem?_getD]; exact hhelp

theorem helpArg_getElem (args : List Str) (h1 : 1 < args.length)
    (hhelp : isHelpArg (args.getD 1 []) = true) : isHelpArg args[1] = true := by
  have h := List.getElem?_eq_getElem h1
  have h2 := helpArg_getElem?_getD args hhelp
  rwa [h] at h2

/-- C1 (amended): for every command, invoked from a menu it supports,
when the command's own tokenization of the argument line succeeds
(whitespace splitting always does; the shell-words parsing used by
`touch`, `execute-assembly`, `sharpgen`, and `!` can fail on malformed
quoting, in which case an Error-level Response is returned instead) and
the token after the command name case-insensitively matches a help
alias, `Do` returns an Info-level Response whose text contains the
command's description, usage, example, and notes verbatim, before any
other argument validation. -/
theorem C1_help_alias_full_help (c : Cmd) (m : Menu) (env : Env) (id arguments : Str)
    (args : List Str)
    (hm : cmdMenuFn c m = true)
    (ht : cmdTokenize c arguments = .ok args)
    (hlen : 2 ≤ args.length)
    (hhelp : isHelpArg (args.getD 1 []) = true) :
    cmdDo c env m id arguments = .ok (msgOut (newUserMessage .Info (cmdHelpText c m)))
    ∧ strContains (cmdHelpText c m) (cmdHelp c m).Description
    ∧ strContains (cmdHelpText c m) (cmdHelp c m).Usage
    ∧ strContains (cmdHelpText c m) (cmdHelp c m).Example
    ∧ strContains (cmdHelpText c m) (cmdHelp c m).Notes := by
  obtain ⟨q1, q2, q3, q4⟩ := helpFormat_contains_all (cmdName c) (cmdHelp c m)
  refine ⟨?_, q1, q2, q3, q4⟩
  have h2 : ¬ (args.length < 2) := by omega
  have h1 : args.length > 1 := by omega
  have hh2 := helpArg_getElem?_getD args hhelp
  have hh3 := helpArg_getElem args h1 hhelp
  cases c
  case token =>
    simp only [cmdTokenize, Except.ok.injEq] at ht
    simp [cmdDo, tokenDo, ht, h2, hhelp, hh2, hh3, cmdHelpText, cmdName, cmdHelp]
  case executeShellcode =>
    simp only [cmdTokenize, Except.ok.injEq] at ht
    have hl := helpArg_getElem?_getD args hhelp
    simp only [isHelpArg, Bool.or_eq_true, beq_iff_eq] at hl
    rcases hl with (((h | h) | h) | h) | h <;>
      simp +decide [cmdDo, escDo, ht, h2, h, hhelp, hh2, hh3, cmdHelpText, cmdName, cmdHelp]
  case executeAssembly =>
    simp only [cmdTokenize] at ht
    simp [cmdDo, execAssemblyDo, ht, h2, h1, hhelp, hh2, hh3, cmdHelpText, cmdName, cmdHelp]
  case sharpgen =>
    simp only [cmdTokenize] at ht
    simp [cmdDo, sharpgenDo, ht, h2, h1, hhelp, hh2, hh3, cmdHelpText, cmdName, cmdHelp]
  case touch =>
    simp only [cmdTokenize] at ht
    simp [cmdDo, touchDo, ht, h1, hhelp, hh2, hh3, cmdHelpText, cmdName, cmdHelp]
  case listener =>
    simp only [cmdTokenize, Except.ok.injEq] at ht
    have hl := helpArg_getElem?_getD args hhelp
    simp only [isHelpArg, Bool.or_eq_true, beq_iff_eq] at hl
    rcases hl with (((h | h) | h) | h) | h <;>
      simp +decide [cmdDo, listenerDo, ht, h2, h, hhelp, hh2, hh3, cmdHelpText, cmdName, cmdHelp]
  case jobs =>
    simp only [cmdTokenize, Except.ok.injEq] at ht
    simp [cmdDo, jobsDo, ht, h1, hhelp, hh2, hh3, cmdHelpText, cmdName, cmdHelp]
  case set =>
    simp only [cmdTokenize, Except.ok.injEq] at ht
    cases m <;> simp [cmdMenuFn, menuLoop, cmdMenus] at hm <;>
      simp [cmdDo, setDo, setDoListener, setDoListenerSetup, setDoModule, ht, h1, hhelp, hh2,
        hh3, cmdHelpText, cmdName, cmdHelp, setHelpFn]
  case reload =>
    simp only [cmdTokenize, Except.ok.injEq] at ht
    simp [cmdDo, reloadDo, ht, h1, hhelp, hh2, hh3, cmdHelpText, cmdName, cmdHelp]
  case back =>
    simp only [cmdTokenize, Except.ok.injEq] at ht
    simp [cmdDo, backDo, ht, h1, hhelp, hh2, hh3, cmdHelpText, cmdName, cmdHelp]
  case exclamation =>
    simp only [cmdTokenize] at ht
    simp [cmdDo, exclamationDo, ht, h2, h1, hhelp, hh2, hh3, cmdHelpText, cmdName, cmdHelp]
  case netstat =>
    simp only [cmdTokenize, Except.ok.injEq] at ht
    simp [cmdDo, netstatDo, ht, h1, hhelp, hh2, hh3, cmdHelpText, cmdName, cmdHelp]

/-- C1 (counterexample): for `touch`, with the help alias `help` as the
first whitespace-delimited argument but an unbalanced quote later on the
line, `Do` returns an Error-level Response from the shell-words parser
instead of the Info-level help the claim requires. -/
theorem C1_quoting_counterexample :
    cmdDo .touch defaultEnv .AGENT [] ("touch help ".data ++ [chDQuote]) =
      .ok (msgOut (newErrorMessage "there was an error parsing the arguments: invalid command line string".data))
    ∧ Level.Error ≠ Level.Info := by
  exact ⟨by decide, by decide⟩

theorem C1_witness :
    cmdDo .token defaultEnv .AGENT [] "token -h".data =
      .ok (msgOut (newUserMessage .Info (cmdHelpText .token .AGENT)))
    ∧ strContains (cmdHelpText .token .AGENT) (cmdHelp .token .AGENT).Description
    ∧ strContains (cmdHelpText .token .AGENT) (cmdHelp .token .AGENT).Usage
    ∧ strContains (cmdHelpText .token .AGENT) (cmdHelp .token .AGENT).Example
    ∧ strContains (cmdHelpText .token .AGENT) (cmdHelp .token .AGENT).Notes :=
  C1_help_alias_full_help .token .AGENT defaultEnv [] "token -h".data
    ["token".data, "-h".data] (by decide) (by decide) (by decide) (by decide)

/-!
### Insufficient arguments yield the usage string (C4)
-/

theorem helpArg_getElem?_getD_false (args : List Str) (h : isHelpArg (args.getD 1 []) = false) :
    isHelpArg (args[1]?.getD []) = false := by
  rw [← List.getD_eq_getElem?_getD]; exact h

theorem helpArg_getElem_false (args : List Str) (h1 : 1 < args.length)
    (h : isHelpArg (args.getD 1 []) = false) : isHelpArg args[1] = false := by
  have hx := List.getElem?_eq_getElem h1
  have h2 := helpArg_getElem?_getD_false args h
  rwa [hx] at h2

/-- C4 (amended): for every command with a top-level minimum argument
count, invoked from a menu it supports with fewer tokens than required
and no help alias present, `Do` returns a Response carrying the usage
string for that menu; the Response is Info-level for every such command
except `touch`, whose insufficient-arguments Response is built with
`NewErrorMessage` and is therefore Error-level. -/
theorem C4_insufficient_args (c : Cmd) (m : Menu) (env : Env) (id arguments : Str)
    (args : List Str)
    (hm : cmdMenuFn c m = true)
    (ht : cmdTokenize c arguments = .ok args)
    (hmin : args.length < cmdMinArgs c)
    (hnh : isHelpArg (args.getD 1 []) = false) :
    ∃ t, cmdDo c env m id arguments =
        .ok (msgOut ⟨if c = .touch then .Error else .Info, t⟩)
      ∧ strContains t (cmdHelp c m).Usage := by
  have hn2 := helpArg_getElem?_getD_false args hnh
  cases c
  case jobs => simp [cmdMinArgs] at hmin
  case reload => simp [cmdMinArgs] at hmin
  case back => simp [cmdMinArgs] at hmin
  case netstat => simp [cmdMinArgs] at hmin
  case token =>
    simp only [cmdTokenize, Except.ok.injEq] at ht
    simp only [cmdMinArgs] at hmin
    refine ⟨"\x27token\x27 command requires at least one argument\n".data ++ tokenHelp.Usage, ?_, ?_⟩
    · simp +decide [cmdDo, tokenDo, ht, hmin, newUserMessage]
    · exact ⟨"\x27token\x27 command requires at least one argument\n".data, [], by simp [cmdHelp]⟩
  case executeShellcode =>
    simp only [cmdTokenize, Except.ok.injEq] at ht
    simp only [cmdMinArgs] at hmin
    refine ⟨"\x27execute-shellcode\x27 command requires at least one argument\n".data ++ execShellcodeHelp.Usage, ?_, ?_⟩
    · simp +decide [cmdDo, escDo, ht, hmin, newUserMessage]
    · exact ⟨"\x27execute-shellcode\x27 command requires at least one argument\n".data, [], by simp [cmdHelp]⟩
  case executeAssembly =>
    simp only [cmdTokenize] at ht
    simp only [cmdMinArgs] at hmin
    refine ⟨"\x27execute-assembly\x27 command requires at least one argument\n".data ++ execAssemblyHelp.Usage, ?_, ?_⟩
    · simp +decide [cmdDo, execAssemblyDo, ht, hmin, newUserMessage]
    · exact ⟨"\x27execute-assembly\x27 command requires at least one argument\n".data, [], by simp [cmdHelp]⟩
  case sharpgen =>
    simp only [cmdTokenize] at ht
    simp only [cmdMinArgs] at hmin
    refine ⟨"\x27sharpgen\x27 command requires at least one argument\n".data ++ sharpgenHelp.Usage, ?_, ?_⟩
    · simp +decide [cmdDo, sharpgenDo, ht, hmin, newUserMessage]
    · exact ⟨"\x27sharpgen\x27 command requires at least one argument\n".data, [], by simp [cmdHelp]⟩
  case exclamation =>
    simp only [cmdTokenize] at ht
    simp only [cmdMinArgs] at hmin
    refine ⟨"\x27!\x27 command requires at least one argument\n".data ++ exclamationHelp.Usage, ?_, ?_⟩
    · simp +decide [cmdDo, exclamationDo, ht, hmin, newUserMessage]
    · exact ⟨"\x27!\x27 command requires at least one argument\n".data, [], by simp [cmdHelp]⟩
  case listener =>
    simp only [cmdTokenize, Except.ok.injEq] at ht
    simp only [cmdMinArgs] at hmin
    refine ⟨"\x27listener\x27 command requires at least one argument\n".data ++ listenerHelp.Usage, ?_, ?_⟩
    · simp +decide [cmdDo, listenerDo, ht, hmin, newUserMessage]
    · exact ⟨"\x27listener\x27 command requires at least one argument\n".data, [], by simp [cmdHelp]⟩
  case touch =>
    simp only [cmdTokenize] at ht
    simp only [cmdMinArgs] at hmin
    refine ⟨"\x27touch\x27 command requires two arguments\n".data ++ touchHelp.Usage, ?_, ?_⟩
    · simp +decide [cmdDo, touchDo, ht, hmin, hnh, hn2, newErrorMessage]
    · exact ⟨"\x27touch\x27 command requires two arguments\n".data, [], by simp [cmdHelp]⟩
  case set =>
    simp only [cmdTokenize, Except.ok.injEq] at ht
    simp only [cmdMinArgs] at hmin
    refine ⟨(setHelpFn m).Usage, ?_, ?_⟩
    · cases m <;> simp [cmdMenuFn, menuLoop, cmdMenus] at hm <;>
        simp +decide [cmdDo, setDo, setDoListener, setDoListenerSetup, setDoModule, ht, hmin,
          hnh, hn2, newUserMessage, setHelpFn]
    · exact ⟨[], [], by simp [cmdHelp]⟩


/-- C4 (counterexample): `touch` with too few arguments answers with an
Error-level Response, not the Info-level outcome the claim requires of
every command. -/
theorem C4_touch_error_counterexample :
    cmdDo .touch defaultEnv .AGENT [] "touch".data =
      .ok (msgOut (newErrorMessage ("\x27touch\x27 command requires two arguments\n".data ++ touchHelp.Usage)))
    ∧ (newErrorMessage ("\x27touch\x27 command requires two arguments\n".data ++ touchHelp.Usage)).level = Level.Error := by
  exact ⟨by decide, rfl⟩

theorem C4_witness :
    ∃ t, cmdDo .token defaultEnv .AGENT [] "token".data =
        .ok (msgOut ⟨if Cmd.token = .touch then .Error else .Info, t⟩)
      ∧ strContains t (cmdHelp .token .AGENT).Usage :=
  C4_insufficient_args .token .AGENT defaultEnv [] "token".data ["token".data]
    (by decide) (by decide) (by decide) (by decide)

/-!
### Malformed listener addresses are rejected before any RPC (C6)
-/

/-- An Error-level, effect-free dispatch outcome: the Response carries an
Error message, no menu change, and no collaborator call was made. -/
def isErrorNoEffects : GoEx DoOut → Prop
  | .ok r => (∃ t, r.1.message = some ⟨.Error, t⟩) ∧ r.1.menu = none ∧ r.2 = []
  | .panicked _ => False

/-- C6 (amended): for any `listener start` or `listener stop` whose
protocol is tcp or udp and whose address token either does not split into
exactly host and port on `:` or has a host part that is not a parseable
IP, client-side validation rejects the input: `Do` returns an Error-level
Response and makes no collaborator call (in particular `rpc.Listener` is
invoked zero times).  The port part itself is never validated
client-side; a parseable IP with a malformed port is forwarded to the
RPC layer (see the counterexample). -/
theorem C6_bad_address_rejected (env : Env) (m : Menu) (id arguments : Str)
    (sub proto addrTok : Str) (rest : List Str)
    (hsplit : goSplit ' ' arguments = "listener".data :: sub :: proto :: addrTok :: rest)
    (hsub : goToLower sub = "start".data ∨ goToLower sub = "stop".data)
    (hproto : goToLower proto = "tcp".data ∨ goToLower proto = "udp".data)
    (hbad : (goSplit ':' addrTok).length ≠ 2 ∨ netParseIP ((goSplit ':' addrTok).getD 0 []) = none) :
    isErrorNoEffects (cmdDo .listener env m id arguments) := by
  have hnp : isHelpArg proto = false := by
    rcases hproto with hp | hp <;> simp +decide [isHelpArg, hp]
  have hna : ¬ (rest.length + 1 + 1 + 1 + 1 < 2) := by omega
  have hnb : ¬ (rest.length + 1 + 1 + 1 + 1 < 4) := by omega
  by_cases hlen2 : (goSplit ':' addrTok).length = 2
  · have hpn : netParseIP ((goSplit ':' addrTok).getD 0 []) = none := by
      rcases hbad with hb | hb
      · exact absurd hlen2 hb
      · exact hb
    have hb0 : 0 < (goSplit ':' addrTok).length := by omega
    have hpn2 : netParseIP (goSplit ':' addrTok)[0] = none := by
      have hgi := List.getElem?_eq_getElem hb0
      rw [List.getD_eq_getElem?_getD, hgi] at hpn
      exact hpn
    rcases hsub with hs | hs <;> rcases hproto with hp | hp <;>
      simp +decide [cmdDo, listenerDo, listenerStart, listenerStartCont, hsplit, hs, hp, hnp,
        hlen2, hpn, hpn2, hna, hnb, isErrorNoEffects, msgOut, msgResp, newErrorMessage]
  · rcases hsub with hs | hs <;> rcases hproto with hp | hp <;>
      simp +decide [cmdDo, listenerDo, listenerStart, listenerStartCont, hsplit, hs, hp, hnp,
        hlen2, hna, hnb, isErrorNoEffects, msgOut, msgResp, newErrorMessage]

theorem C6_witness :
    isErrorNoEffects (cmdDo .listener defaultEnv .AGENT [] "listener start udp not-an-ip:8888".data) :=
  C6_bad_address_rejected defaultEnv .AGENT [] "listener start udp not-an-ip:8888".data
    "start".data "udp".data "not-an-ip:8888".data []
    (by decide) (Or.inl (by decide)) (Or.inr (by decide)) (Or.inr (by decide))


/-- C6 (counterexample): `listener start tcp 127.0.0.1:x` has no
parseable port, yet client-side validation lets it through: `rpc.Listener`
is invoked once, not zero times as the claim requires for every address
token lacking a parseable IP and port. -/
theorem C6_port_not_validated_counterexample :
    cmdDo .listener defaultEnv .AGENT [] "listener start tcp 127.0.0.1:x".data =
      .ok ({ message := some (defaultEnv.rpcListener ["start".data, "tcp".data, "127.0.0.1:x".data]) },
        [.rpcListener [] ["start".data, "tcp".data, "127.0.0.1:x".data]])
    ∧ [Effect.rpcListener [] ["start".data, "tcp".data, "127.0.0.1:x".data]].length = 1 := by
  exact ⟨by decide, rfl⟩

/-!
### Local execution output (C8) and the `set` value truncation (C10)
-/

/-- C8: when `!` is dispatched in the MAIN menu with `! echo hi` and the
local process execution succeeds producing combined output `hi\n`, `Do`
returns a Success-level Response whose text contains the captured output
`hi\n`, and the Response requests no menu change. -/
theorem C8_exclamation_echo_success (env : Env) (id : Str) (pid : Nat)
    (hx : env.execCombinedOutput ["echo".data, "hi".data] = (some pid, "hi\n".data, none)) :
    cmdDo .exclamation env .MAIN id "! echo hi".data =
      .ok (⟨some ⟨.Success,
          "Executed \x27echo\x27 command on the local system with a process ID of ".data ++
            natToStr pid ++ "\n\n".data ++ "hi\n".data⟩,
        none, none⟩, [.execLocal ["echo".data, "hi".data]])
    ∧ strContains
        ("Executed \x27echo\x27 command on the local system with a process ID of ".data ++
          natToStr pid ++ "\n\n".data ++ "hi\n".data) "hi\n".data := by
  have hp : shellwordsParse "! echo hi".data = .ok ["!".data, "echo".data, "hi".data] := by decide
  constructor
  · simp +decide [cmdDo, exclamationDo, hp, hx, msgResp, newUserMessage, List.append_assoc]
  · exact ⟨"Executed \x27echo\x27 command on the local system with a process ID of ".data ++
      natToStr pid ++ "\n\n".data, [], by simp [List.append_assoc]⟩

def envEcho : Env :=
  { defaultEnv with
    execCombinedOutput := fun argv =>
      if argv == ["echo".data, "hi".data] then (some 1337, "hi\n".data, none) else (none, [], none) }

theorem C8_witness :
    cmdDo .exclamation envEcho .MAIN [] "! echo hi".data =
      .ok (⟨some ⟨.Success,
          "Executed \x27echo\x27 command on the local system with a process ID of ".data ++
            natToStr 1337 ++ "\n\n".data ++ "hi\n".data⟩,
        none, none⟩, [.execLocal ["echo".data, "hi".data]])
    ∧ strContains
        ("Executed \x27echo\x27 command on the local system with a process ID of ".data ++
          natToStr 1337 ++ "\n\n".data ++ "hi\n".data) "hi\n".data :=
  C8_exclamation_echo_success envEcho [] 1337 (by decide)

/-- C10: for `set key v1 v2 ...` (at least three tokens) in the
LISTENERSETUP and MODULE menus, only the third token `v1` is stored as
the option\x27s new value — the stored value and the Success message
(`set \x27key\x27 to: v1`) are independent of the trailing tokens
`rest`, which are silently discarded, so a value containing spaces
cannot be set. -/
theorem C10_set_stores_only_third_token (env : Env) (id arguments : Str)
    (key v1 : Str) (rest : List Str) (opts : List (Str × Str))
    (hsplit : goSplit ' ' arguments = "set".data :: key :: v1 :: rest)
    (hnh : isHelpArg key = false)
    (hget : env.listenerGet = some opts)
    (hkey : setOptionsHas opts key = true)
    (hupd : env.listenerUpdate (setOptionsUpdate opts key v1) = none)
    (hmod : env.moduleUpdateOption key v1 = none) :
    cmdDo .set env .LISTENERSETUP id arguments =
      .ok (msgResp (newUserMessage .Success ("set \x27".data ++ key ++ "\x27 to: ".data ++ v1)),
        [.repoUpdateListener id (setOptionsUpdate opts key v1)])
    ∧ cmdDo .set env .MODULE id arguments =
      .ok (msgResp (newUserMessage .Success ("set \x27".data ++ key ++ "\x27 to: ".data ++ v1)),
        [.repoUpdateModuleOption id key v1]) := by
  have hna : ¬ (rest.length + 1 + 1 + 1 < 3) := by omega
  constructor
  · simp +decide [cmdDo, setDo, setDoListenerSetup, hsplit, hnh, hget, hkey, hupd, hna,
      msgResp, newUserMessage, List.append_assoc]
  · simp +decide [cmdDo, setDo, setDoModule, hsplit, hnh, hmod, hna,
      msgResp, newUserMessage, List.append_assoc]

def envC10 : Env :=
  { defaultEnv with listenerGet := some [("Name".data, "x".data)] }

theorem C10_witness :
    cmdDo .set envC10 .LISTENERSETUP [] "set Name Merlin Demo".data =
      .ok (msgResp (newUserMessage .Success ("set \x27".data ++ "Name".data ++ "\x27 to: ".data ++ "Merlin".data)),
        [.repoUpdateListener [] (setOptionsUpdate [("Name".data, "x".data)] "Name".data "Merlin".data)])
    ∧ cmdDo .set envC10 .MODULE [] "set Name Merlin Demo".data =
      .ok (msgResp (newUserMessage .Success ("set \x27".data ++ "Name".data ++ "\x27 to: ".data ++ "Merlin".data)),
        [.repoUpdateModuleOption [] "Name".data "Merlin".data]) :=
  C10_set_stores_only_third_token envC10 [] "set Name Merlin Demo".data
    "Name".data "Merlin".data ["Demo".data] [("Name".data, "x".data)]
    (by decide) (by decide) (by decide) (by decide) (by decide) (by decide)
